import Mathlib

/-!
# reaver-wps: the WPS exchange engine (`src/exchange.c`)

A shallow embedding of `do_wps_exchange`, `process_packet`, `process_wps_message`
and `parse_nack`.

* A captured packet is the list of its bytes; `header->len` is a separate number,
  as in `struct pcap_pkthdr`.  A read or write of a packet byte outside the captured
  bytes has no defined result in C: the embedding returns `Except.error off`, where
  `off` is the offset of the offending access.
* The constants, enumerators and header layouts of `exchange.h` are not part of the
  sources at hand; they are the fields of `Defs`, and every general theorem holds
  for all of their values.
* The process-wide session fields behind the `get_*`/`set_*` accessors are the
  record `Globule`; `wps->state` is `Globule.wps.state`.
* The collaborators (transmission, timer, protocol engine) record what they were
  asked to do in `Globule.log`; the engine itself is a parameter (`Env`).
-/

namespace Reaver

/-! ## Missing declarations of `exchange.h`, taken as parameters -/

/-- Constants, enumerators, structure sizes and field offsets used by `exchange.c`
and declared in headers that are not available.  Multi-byte fields compared in
host byte order are read little-endian. -/
structure Defs where
  /-- `MIN_PACKET_SIZE` -/
  MIN_PACKET_SIZE : Nat
  /-- `EAP_PACKET_SIZE` -/
  EAP_PACKET_SIZE : Nat
  /-- `WFA_PACKET_SIZE` -/
  WFA_PACKET_SIZE : Nat
  /-- `MAC_ADDR_LEN` -/
  MAC_ADDR_LEN : Nat
  /-- `EAPOL_START_MAX_TRIES` -/
  EAPOL_START_MAX_TRIES : Nat
  /-- `sizeof(struct dot11_frame_header)` -/
  sizeof_dot11_frame_header : Nat
  /-- `sizeof(struct llc_header)` -/
  sizeof_llc_header : Nat
  /-- `sizeof(struct dot1X_header)` -/
  sizeof_dot1X_header : Nat
  /-- `sizeof(struct eap_header)` -/
  sizeof_eap_header : Nat
  /-- `sizeof(struct wfa_expanded_header)` -/
  sizeof_wfa_expanded_header : Nat
  /-- number of bits of `size_t` -/
  size_t_bits : Nat
  /-- `offsetof(struct radio_tap_header, len)`, a 16-bit field -/
  rt_len_off : Nat
  /-- `offsetof(struct dot11_frame_header, fc)`, the byte holding the `type` and
  `sub_type` bit fields -/
  fc_off : Nat
  /-- `offsetof(struct dot11_frame_header, addr1)` -/
  addr1_off : Nat
  /-- `offsetof(struct dot11_frame_header, addr3)` -/
  addr3_off : Nat
  /-- `offsetof(struct llc_header, type)`, a 16-bit field -/
  llc_type_off : Nat
  /-- `offsetof(struct dot1X_header, type)`, one byte -/
  dot1X_type_off : Nat
  /-- `offsetof(struct eap_header, code)`, one byte -/
  eap_code_off : Nat
  /-- `offsetof(struct eap_header, id)`, one byte -/
  eap_id_off : Nat
  /-- `offsetof(struct eap_header, len)`, a 16-bit field in network byte order -/
  eap_len_off : Nat
  /-- `offsetof(struct eap_header, type)`, one byte -/
  eap_type_off : Nat
  /-- `offsetof(struct wfa_expanded_header, type)`, a 32-bit field -/
  wfa_type_off : Nat
  /-- `offsetof(struct wfa_expanded_header, opcode)`, one byte -/
  wfa_opcode_off : Nat
  /-- `DATA_FRAME` -/
  DATA_FRAME : Nat
  /-- `SUBTYPE_DATA` -/
  SUBTYPE_DATA : Nat
  /-- `DOT1X_AUTHENTICATION` -/
  DOT1X_AUTHENTICATION : Nat
  /-- `DOT1X_EAP_PACKET` -/
  DOT1X_EAP_PACKET : Nat
  /-- `EAP_FAILURE` -/
  EAP_FAILURE : Nat
  /-- `EAP_REQUEST` -/
  EAP_REQUEST : Nat
  /-- `EAP_IDENTITY` -/
  EAP_IDENTITY : Nat
  /-- `EAP_EXPANDED` -/
  EAP_EXPANDED : Nat
  /-- `SIMPLE_CONFIG` -/
  SIMPLE_CONFIG : Nat
  /-- `enum wps_type`: `TERMINATE` -/
  TERMINATE : Int
  /-- `enum wps_type`: `UNKNOWN`, what `process_packet` returns for a frame that is
  of no interest (the spec's `NONE`) -/
  UNKNOWN : Int
  /-- `enum wps_type`: `IDENTITY_REQUEST` -/
  IDENTITY_REQUEST : Int
  /-- `enum wps_type`: `RXM1` -/
  RXM1 : Int
  /-- `enum wps_type`: `RXM3` -/
  RXM3 : Int
  /-- `enum wps_type`: `RXM5` -/
  RXM5 : Int
  /-- `enum wps_type`: `RXM7` -/
  RXM7 : Int
  /-- `enum wps_type`: `DONE` -/
  DONE : Int
  /-- `enum wps_type`: `NACK` -/
  NACK : Int
  /-- engine state `SEND_WSC_NACK` -/
  SEND_WSC_NACK : Int
  /-- engine state `RECV_DONE` -/
  RECV_DONE : Int
  /-- engine state `RECV_M5` -/
  RECV_M5 : Int
  /-- engine state `RECV_M7` -/
  RECV_M7 : Int

/-- The labels of the `switch` in `do_wps_exchange` are pairwise different (a C
compiler refuses a `switch` with two equal labels). -/
def Defs.caseLabelsDistinct (d : Defs) : Prop :=
  [d.IDENTITY_REQUEST, d.RXM5, d.RXM1, d.RXM3, d.NACK, d.TERMINATE, d.RXM7, d.DONE].Nodup

instance (d : Defs) : Decidable d.caseLabelsDistinct := by
  unfold Defs.caseLabelsDistinct; infer_instance

/-! ## Data model -/

/-- `enum wps_result`, the outcome of one exchange. -/
inductive wps_result where
  | KEY_ACCEPTED
  | KEY_REJECTED
  | RX_TIMEOUT
  | EAP_FAIL
  | UNKNOWN_ERROR
  deriving DecidableEq, Repr

/-- The key status.  `KEY2_WIP` and `KEY_DONE` are the enumerators named in
`exchange.c`; `KEY1_WIP` stands for the remaining value (the spec's `NOT_DONE`). -/
inductive key_state where
  | KEY1_WIP
  | KEY2_WIP
  | KEY_DONE
  deriving DecidableEq, Repr

/-- The part of `struct wps_data` the exchange code looks at: the engine's `state`.
Everything else the protocol engine keeps is summarised by `priv`. -/
structure wps_data where
  state : Int
  priv : Nat
  deriving DecidableEq, Repr

/-- `struct pcap_pkthdr`: only `len` is used. -/
structure pcap_pkthdr where
  len : Nat
  deriving DecidableEq, Repr

/-- What the collaborators were asked to do, in order. -/
inductive Action where
  | eapol_start
  | identity_response
  | msg
  | wsc_nack
  | termination
  | stop_timer
  deriving DecidableEq, Repr

/-- The process-wide session fields read and written through the accessors
`get_*`/`set_*`, the engine data behind `get_wps()`, and the record of the calls
made to the transmission and timer collaborators. -/
structure Globule where
  key_status : key_state
  last_wps_state : Int
  eap_id : Nat
  eapol_start_count : Nat
  opcode : Nat
  nack_reason : Int
  timeout_is_nack : Int
  eap_terminate : Int
  bssid : List Nat
  mac : List Nat
  wps : wps_data
  log : List Action
  deriving DecidableEq, Repr

/-- The external protocol engine and the allocator, consumed as black boxes. -/
structure Env where
  /-- `wps_registrar_process_msg(wps, opcode, msg)`: the engine data afterwards -/
  wps_registrar_process_msg : wps_data → Nat → List Nat → wps_data
  /-- the effect on the engine data of building the next outgoing message, which
  `send_msg()` asks the engine for -/
  wps_registrar_get_msg : wps_data → wps_data
  /-- whether `wpabuf_alloc_copy` obtains a buffer for the given number of bytes -/
  alloc_ok : Nat → Bool
  /-- `wps_parse_msg(msg, &attr)`: `none` for a negative return value, otherwise
  `attr.config_error`: `none` for a null pointer, else the two bytes it points to -/
  wps_parse_msg : List Nat → Option (Option (Nat × Nat))

/-! ## Accessors and collaborators -/

def set_last_wps_state (v : Int) (g : Globule) : Globule := { g with last_wps_state := v }

def set_eap_id (v : Nat) (g : Globule) : Globule := { g with eap_id := v }

def set_eapol_start_count (v : Nat) (g : Globule) : Globule :=
  { g with eapol_start_count := v }

def set_opcode (v : Nat) (g : Globule) : Globule := { g with opcode := v }

def set_nack_reason (v : Int) (g : Globule) : Globule := { g with nack_reason := v }

def set_timeout_is_nack (v : Int) (g : Globule) : Globule := { g with timeout_is_nack := v }

def set_key_status (v : key_state) (g : Globule) : Globule := { g with key_status := v }

/-- Modelled from the spec: `send_eapol_start()` is not in the sources.  Re-sending
the session-initiation message increments the start-retry counter; the call is
recorded. -/
def send_eapol_start (g : Globule) : Globule :=
  { g with eapol_start_count := g.eapol_start_count + 1, log := g.log ++ [Action.eapol_start] }

/-- Modelled from the spec: `send_identity_response()` is not in the sources.  It
transmits an identity response; the call is recorded. -/
def send_identity_response (g : Globule) : Globule :=
  { g with log := g.log ++ [Action.identity_response] }

/-- Modelled from the spec: `send_msg()` is not in the sources.  It has the engine
build the next protocol message and transmits it; the call is recorded. -/
def send_msg (env : Env) (g : Globule) : Globule :=
  { g with wps := env.wps_registrar_get_msg g.wps, log := g.log ++ [Action.msg] }

/-- Modelled from the spec: `send_wsc_nack()` is not in the sources.  It transmits
a rejection acknowledgment; the call is recorded. -/
def send_wsc_nack (g : Globule) : Globule := { g with log := g.log ++ [Action.wsc_nack] }

/-- Modelled from the spec: `send_termination()` is not in the sources.  It
transmits a session-termination message; the call is recorded. -/
def send_termination (g : Globule) : Globule :=
  { g with log := g.log ++ [Action.termination] }

/-- Modelled from the spec: `stop_timer()` is not in the sources.  It disarms the
receive timer; the call is recorded. -/
def stop_timer (g : Globule) : Globule := { g with log := g.log ++ [Action.stop_timer] }

/-! ## Reading the packet -/

/-- One byte of the packet; a read outside the captured bytes is an error that
carries the offset. -/
def rd8 (p : List Nat) (i : Nat) : Except Nat Nat :=
  match p[i]? with
  | some b => .ok b
  | none => .error i

/-- A 16-bit field in host (little-endian) byte order. -/
def rd16le (p : List Nat) (i : Nat) : Except Nat Nat :=
  match rd8 p i with
  | .error e => .error e
  | .ok lo =>
    match rd8 p (i + 1) with
    | .error e => .error e
    | .ok hi => .ok (lo + 256 * hi)

/-- A 16-bit field converted with `ntohs` (network byte order). -/
def rd16be (p : List Nat) (i : Nat) : Except Nat Nat :=
  match rd8 p i with
  | .error e => .error e
  | .ok hi =>
    match rd8 p (i + 1) with
    | .error e => .error e
    | .ok lo => .ok (256 * hi + lo)

/-- A 32-bit field in host (little-endian) byte order. -/
def rd32le (p : List Nat) (i : Nat) : Except Nat Nat :=
  match rd16le p i with
  | .error e => .error e
  | .ok lo =>
    match rd16le p (i + 2) with
    | .error e => .error e
    | .ok hi => .ok (lo + 65536 * hi)

/-- The `n` bytes starting at offset `i` (`memcmp`, `memcpy`); the error carries the
first offset that is outside the captured bytes. -/
def rdN (p : List Nat) (i n : Nat) : Except Nat (List Nat) :=
  if n = 0 then .ok []
  else if i + n ≤ p.length then .ok ((p.drop i).take n)
  else .error (max i p.length)

/-- The bit field `fc.type` (bits 2-3 of the first frame-control byte). -/
def fc_type (b : Nat) : Nat := (b / 4) % 4

/-- The bit field `fc.sub_type` (bits 4-7 of the first frame-control byte). -/
def fc_sub_type (b : Nat) : Nat := (b / 16) % 16

/-! ## `parse_nack`, `process_wps_message`, `process_packet` -/

/-- `wpabuf_alloc_copy(data, data_size)` for `data` pointing at offset `data` of the
packet: `none` is the null pointer (no buffer obtained, nothing read); otherwise
`data_size` bytes are copied out of the packet. -/
def wpabuf_alloc_copy (env : Env) (p : List Nat) (data data_size : Nat) :
    Except Nat (Option (List Nat)) :=
  if env.alloc_ok data_size then
    match rdN p data data_size with
    | .error e => .error e
    | .ok m => .ok (some m)
  else .ok none

/-- `WPA_GET_BE16`. -/
def WPA_GET_BE16 (a : Nat × Nat) : Int := ((a.1 * 256 + a.2 : Nat) : Int)

/-- `parse_nack` (lines 371-393). -/
def parse_nack (env : Env) (p : List Nat) (data data_size : Nat) : Except Nat Int :=
  match wpabuf_alloc_copy env p data data_size with
  | .error e => .error e
  | .ok none => .ok 0
  | .ok (some msg) =>
    match env.wps_parse_msg msg with
    | some (some config_error) => .ok (WPA_GET_BE16 config_error)
    | _ => .ok 0

/-- The last statement of `process_wps_message` (lines 358-362): the engine's state
is decremented when it equals the saved state. -/
def revert_state (g : Globule) : Globule :=
  if g.wps.state = g.last_wps_state then
    { g with wps := { g.wps with state := g.wps.state - 1 } }
  else g

/-- `process_wps_message` (lines 324-365); `data` is the offset of the message in
the packet `p`. -/
def process_wps_message (d : Defs) (env : Env) (p : List Nat) (data data_size : Nat)
    (g : Globule) : Except Nat (Int × Globule) :=
  match wpabuf_alloc_copy env p data data_size with
  | .error e => .error e
  | .ok none => .ok (d.UNKNOWN, revert_state g)
  | .ok (some msg) =>
    let g1 := { g with wps := env.wps_registrar_process_msg g.wps g.opcode msg }
    if g1.wps.state = d.SEND_WSC_NACK then
      match parse_nack env p data data_size with
      | .error e => .error e
      | .ok r => .ok (g1.wps.state, revert_state (set_nack_reason r g1))
    else if g1.wps.state = d.RECV_DONE then
      .ok (g1.wps.state, revert_state g1)
    else
      .ok (g1.wps.state - 1, revert_state g1)

/-- `wps_msg_len` (lines 290-292): the `size_t` subtraction, which wraps around. -/
def wps_msg_len (d : Defs) (eap_len : Nat) : Nat :=
  (((eap_len : Int) - d.sizeof_eap_header - d.sizeof_wfa_expanded_header)
    % (2 ^ d.size_t_bits : Nat)).toNat

/-- Lines 277-313 of `process_packet`: the branch for an EAP request that is not an
identity request.  `eap` is the offset of the EAP header, `ty` is `eap->type`. -/
def process_expanded (d : Defs) (env : Env) (p : List Nat) (len eap ty : Nat)
    (g : Globule) : Except Nat (Int × Globule) :=
  if ty = d.EAP_EXPANDED ∧ len > d.WFA_PACKET_SIZE then
    let wfa := eap + d.sizeof_eap_header
    match rd32le p (wfa + d.wfa_type_off) with
    | .error e => .error e
    | .ok wfa_type =>
      if wfa_type = d.SIMPLE_CONFIG then
        match rd16be p (eap + d.eap_len_off) with
        | .error e => .error e
        | .ok eap_len =>
          let wps_msg := wfa + d.sizeof_wfa_expanded_header
          let g1 := set_last_wps_state g.wps.state g
          match rd8 p (wfa + d.wfa_opcode_off) with
          | .error e => .error e
          | .ok opcode =>
            process_wps_message d env p wps_msg (wps_msg_len d eap_len) (set_opcode opcode g1)
      else .ok (d.UNKNOWN, g)
  else .ok (d.UNKNOWN, g)

/-- Lines 247-315 of `process_packet`: the EAP header at offset `eap`. -/
def process_eap (d : Defs) (env : Env) (p : List Nat) (len eap : Nat)
    (g : Globule) : Except Nat (Int × Globule) :=
  match rd8 p (eap + d.eap_code_off) with
  | .error e => .error e
  | .ok code =>
    if code = d.EAP_FAILURE then .ok (d.TERMINATE, g)
    else if code = d.EAP_REQUEST then
      match rd8 p (eap + d.eap_id_off) with
      | .error e => .error e
      | .ok id =>
        let g1 := stop_timer (set_eap_id id g)
        match rd8 p (eap + d.eap_type_off) with
        | .error e => .error e
        | .ok ty =>
          if ty = d.EAP_IDENTITY then
            .ok (d.IDENTITY_REQUEST, set_eapol_start_count 0 g1)
          else process_expanded d env p len eap ty g1
    else .ok (d.UNKNOWN, g)

/-- Lines 230-316 of `process_packet`: the logical-link and 802.1X headers that
follow the 802.11 header at offset `frame_header`. -/
def process_llc (d : Defs) (env : Env) (p : List Nat) (len frame_header : Nat)
    (g : Globule) : Except Nat (Int × Globule) :=
  let llc := frame_header + d.sizeof_dot11_frame_header
  match rd16le p (llc + d.llc_type_off) with
  | .error e => .error e
  | .ok llc_type =>
    if llc_type = d.DOT1X_AUTHENTICATION then
      let dot1x := llc + d.sizeof_llc_header
      match rd8 p (dot1x + d.dot1X_type_off) with
      | .error e => .error e
      | .ok dot1x_type =>
        if dot1x_type = d.DOT1X_EAP_PACKET ∧ len ≥ d.EAP_PACKET_SIZE then
          process_eap d env p len (dot1x + d.sizeof_dot1X_header) g
        else .ok (d.UNKNOWN, g)
    else .ok (d.UNKNOWN, g)

/-- Lines 218-318 of `process_packet`: a non-null packet `p` whose `header->len` is
`len`, at least `MIN_PACKET_SIZE`. -/
def process_frame (d : Defs) (env : Env) (p : List Nat) (len : Nat)
    (g : Globule) : Except Nat (Int × Globule) :=
  match rd16le p d.rt_len_off with
  | .error e => .error e
  | .ok frame_header =>
    match rdN p (frame_header + d.addr3_off) d.MAC_ADDR_LEN with
    | .error e => .error e
    | .ok addr3 =>
      if addr3 = g.bssid.take d.MAC_ADDR_LEN then
        match rd8 p (frame_header + d.fc_off) with
        | .error e => .error e
        | .ok fc =>
          if fc_type fc = d.DATA_FRAME ∧ fc_sub_type fc = d.SUBTYPE_DATA then
            match rdN p (frame_header + d.addr1_off) d.MAC_ADDR_LEN with
            | .error e => .error e
            | .ok addr1 =>
              if addr1 = g.mac.take d.MAC_ADDR_LEN then
                process_llc d env p len frame_header g
              else .ok (d.UNKNOWN, g)
          else .ok (d.UNKNOWN, g)
      else .ok (d.UNKNOWN, g)

/-- `process_packet` (lines 196-321).  `none` is a null pointer.  The result is the
message type and the session fields afterwards, or the offset of a read outside the
captured bytes. -/
def process_packet (d : Defs) (env : Env) (packet : Option (List Nat))
    (header : Option pcap_pkthdr) (g : Globule) : Except Nat (Int × Globule) :=
  match packet, header with
  | none, _ => .ok (d.UNKNOWN, g)
  | some _, none => .ok (d.UNKNOWN, g)
  | some p, some h =>
    if h.len < d.MIN_PACKET_SIZE then .ok (d.UNKNOWN, g)
    else process_frame d env p h.len g

/-! ## `do_wps_exchange` -/

/-- The local variables of `do_wps_exchange` that outlive an iteration. -/
structure Locals where
  id_response_sent : Bool
  premature_timeout : Bool
  terminated : Bool
  got_nack : Bool
  deriving DecidableEq, Repr

/-- One answer of the capture source and of the timer: what `next_packet(&header)`
returns (`none` is the null pointer) and what `get_out_of_time()` returns at the end
of the iteration that handles this packet. -/
structure Event where
  packet : Option (List Nat)
  header : pcap_pkthdr
  out_of_time : Bool
  deriving DecidableEq, Repr

/-- The `switch(packet_type)` of lines 53-85. -/
def react (d : Defs) (env : Env) (packet_type : Int) (l : Locals) (g : Globule) :
    Locals × Globule :=
  if packet_type = d.IDENTITY_REQUEST then
    ({ l with id_response_sent := true }, send_identity_response g)
  else if packet_type = d.RXM5 then
    (l, send_msg env (set_key_status key_state.KEY2_WIP g))
  else if packet_type = d.RXM1 ∨ packet_type = d.RXM3 then
    (l, send_msg env g)
  else if packet_type = d.NACK then
    ({ l with got_nack := true }, g)
  else if packet_type = d.TERMINATE then
    ({ l with terminated := true }, g)
  else if packet_type = d.RXM7 ∨ packet_type = d.DONE then
    (l, set_key_status key_state.KEY_DONE g)
  else if packet_type ≠ 0 then
    (l, send_msg env g)
  else (l, g)

/-- The receive-timeout check of lines 88-108. -/
def check_timeout (d : Defs) (out_of_time : Bool) (l : Locals) (g : Globule) :
    Locals × Globule :=
  if out_of_time then
    if l.id_response_sent = false then
      if g.eapol_start_count = d.EAPOL_START_MAX_TRIES then
        ({ l with premature_timeout := true }, send_eapol_start (set_eapol_start_count 0 g))
      else (l, send_eapol_start g)
    else ({ l with premature_timeout := true }, g)
  else (l, g)

/-- The condition of the `while` loop (lines 39-42). -/
def loop_cond (l : Locals) (g : Globule) : Bool :=
  decide (g.key_status ≠ key_state.KEY_DONE) && !l.terminated && !l.got_nack &&
    !l.premature_timeout

/-- `memset((void *) packet, 0, header.len)` (line 51): `len` bytes are written from
the start of the packet; a write outside the captured bytes is an error that carries
the first offset outside.  The packet is not looked at again afterwards. -/
def memset_packet (p : List Nat) (len : Nat) : Except Nat Unit :=
  if len ≤ p.length then .ok () else .error p.length

/-- The loop of lines 39-109 over the answers of the capture source.  When the
answers are used up the capture source yields no packet. -/
def exchange_loop (d : Defs) (env : Env) :
    List Event → Locals → Globule → Except Nat (Locals × Globule)
  | [], l, g => .ok (l, g)
  | ev :: evs, l, g =>
    if loop_cond l g then
      match ev.packet with
      | none => .ok (l, g)
      | some p =>
        match process_packet d env (some p) (some ev.header) g with
        | .error e => .error e
        | .ok (packet_type, g1) =>
          match memset_packet p ev.header.len with
          | .error e => .error e
          | .ok _ =>
            let r := react d env packet_type l g1
            let t := check_timeout d ev.out_of_time r.1 r.2
            exchange_loop d env evs t.1 t.2
    else .ok (l, g)

/-- The outcome derivation of lines 119-168. -/
def resolve (d : Defs) (l : Locals) (g : Globule) : wps_result × Globule :=
  if l.got_nack then
    let g1 := set_timeout_is_nack 0 g
    if g1.last_wps_state = d.RECV_M5 ∨ g1.last_wps_state = d.RECV_M7 then
      (wps_result.KEY_REJECTED, g1)
    else (wps_result.UNKNOWN_ERROR, g1)
  else if l.premature_timeout then
    if g.timeout_is_nack ≠ 0 ∧ (g.wps.state = d.RECV_M5 ∨ g.wps.state = d.RECV_M7) then
      (wps_result.KEY_REJECTED, g)
    else (wps_result.RX_TIMEOUT, g)
  else if l.terminated then (wps_result.EAP_FAIL, g)
  else (wps_result.UNKNOWN_ERROR, g)

/-- The cleanup of lines 177-186. -/
def cleanup (l : Locals) (ret_val : wps_result) (g : Globule) : Globule :=
  let g1 := if l.got_nack then send_wsc_nack g else g
  let g2 := if g1.eap_terminate ≠ 0 ∨ ret_val = wps_result.EAP_FAIL then send_termination g1
            else g1
  stop_timer g2

/-- The state in which the loop of `do_wps_exchange` is entered (lines 20-29). -/
def exchange_start (g : Globule) : Locals × Globule :=
  (⟨false, false, false, false⟩, send_eapol_start (set_eap_id 0 (set_last_wps_state 0 g)))

/-- `do_wps_exchange` (lines 15-189): the outcome and the session fields when it
returns. -/
def do_wps_exchange (d : Defs) (env : Env) (evs : List Event) (g : Globule) :
    Except Nat (wps_result × Globule) :=
  match exchange_loop d env evs (exchange_start g).1 (exchange_start g).2 with
  | .error e => .error e
  | .ok (l, g1) =>
    let r := resolve d l g1
    .ok (r.1, cleanup l r.1 r.2)

/-! ## A concrete instance, for running the definitions -/

/-- Values for the declarations of `exchange.h`: the standard layouts of the
radiotap, 802.11, LLC/SNAP, 802.1X, EAP and WFA expanded headers (packed), the
standard EAP codes, and engine states numbered so that each send state follows its
receive state. -/
def sampleDefs : Defs where
  MIN_PACKET_SIZE := 44
  EAP_PACKET_SIZE := 49
  WFA_PACKET_SIZE := 58
  MAC_ADDR_LEN := 6
  EAPOL_START_MAX_TRIES := 25
  sizeof_dot11_frame_header := 24
  sizeof_llc_header := 8
  sizeof_dot1X_header := 4
  sizeof_eap_header := 5
  sizeof_wfa_expanded_header := 9
  size_t_bits := 64
  rt_len_off := 2
  fc_off := 0
  addr1_off := 4
  addr3_off := 16
  llc_type_off := 6
  dot1X_type_off := 1
  eap_code_off := 0
  eap_id_off := 1
  eap_len_off := 2
  eap_type_off := 4
  wfa_type_off := 3
  wfa_opcode_off := 7
  DATA_FRAME := 2
  SUBTYPE_DATA := 0
  DOT1X_AUTHENTICATION := 0x8E88
  DOT1X_EAP_PACKET := 0
  EAP_FAILURE := 4
  EAP_REQUEST := 1
  EAP_IDENTITY := 1
  EAP_EXPANDED := 254
  SIMPLE_CONFIG := 0x01000000
  TERMINATE := -1
  UNKNOWN := 0
  IDENTITY_REQUEST := 1
  RXM1 := 13
  RXM3 := 15
  RXM5 := 17
  RXM7 := 19
  DONE := 21
  NACK := 12
  SEND_WSC_NACK := 12
  RECV_DONE := 21
  RECV_M5 := 17
  RECV_M7 := 19

/-- A stand-in for the protocol engine: a payload starting with byte 14 makes it
want to send a rejection, one starting with 15 completes the exchange, one starting
with 0 is not processed (the state stays), any other payload moves a receive state
to the next send state; building a message moves a send state to the next receive
state.  Every allocation succeeds and a rejection carries configuration error 2. -/
def sampleEnv : Env where
  wps_registrar_process_msg := fun w _ msg =>
    match msg.head? with
    | some 14 => { w with state := 12 }
    | some 15 => { w with state := 21 }
    | some 0 => w
    | _ => { w with state := w.state + 1 }
  wps_registrar_get_msg := fun w => { w with state := w.state + 1 }
  alloc_ok := fun _ => true
  wps_parse_msg := fun _ => some (some (0, 2))

/-- The target address of the concrete runs. -/
def sampleBssid : List Nat := [0, 17, 34, 51, 68, 85]

/-- The local station address of the concrete runs. -/
def sampleMac : List Nat := [2, 0, 0, 0, 0, 1]

/-- Session fields at the start of the concrete runs: engine awaiting message 1,
`tn` the timeout-is-rejection setting and `et` the value `get_eap_terminate()`
returns. -/
def sampleGlobule (tn et : Int) : Globule where
  key_status := key_state.KEY1_WIP
  last_wps_state := 0
  eap_id := 0
  eapol_start_count := 0
  opcode := 0
  nack_reason := 0
  timeout_is_nack := tn
  eap_terminate := et
  bssid := sampleBssid
  mac := sampleMac
  wps := ⟨13, 0⟩
  log := []

/-- An 8-byte radiotap header followed by an 802.11 data header from the target to
the local station, the LLC/SNAP header of 802.1X, an 802.1X header of type
EAP-Packet, the given EAP bytes and a 4-byte frame check sequence. -/
def eapFrame (eap : List Nat) : List Nat :=
  [0, 0, 8, 0, 0, 0, 0, 0] ++
  ([8, 2, 0, 0] ++ sampleMac ++ sampleBssid ++ sampleBssid ++ [0, 0]) ++
  [170, 170, 3, 0, 0, 0, 136, 142] ++
  [1, 0, eap.length / 256, eap.length % 256] ++ eap ++ [0, 0, 0, 0]

/-- EAP request, identity. -/
def identityRequest : List Nat := eapFrame [1, 7, 0, 5, 1]

/-- EAP failure. -/
def eapFailure : List Nat := eapFrame [4, 7, 0, 4]

/-- EAP request of the expanded type carrying a one-byte WPS payload `b` with
opcode 4. -/
def wscFrame (b : Nat) : List Nat :=
  eapFrame [1, 8, 0, 15, 254, 0, 55, 42, 0, 0, 0, 1, 4, 0, b]

/-- A frame of another network: the same as `identityRequest` with another address
in the third address field. -/
def foreignFrame : List Nat :=
  [0, 0, 8, 0, 0, 0, 0, 0] ++
  ([8, 2, 0, 0] ++ sampleMac ++ [9, 9, 9, 9, 9, 9] ++ [9, 9, 9, 9, 9, 9] ++ [0, 0]) ++
  [170, 170, 3, 0, 0, 0, 136, 142] ++ [1, 0, 0, 5] ++ [1, 7, 0, 5, 1] ++ [0, 0, 0, 0]

/-- The capture source hands over the whole frame `p`; `t` is what
`get_out_of_time()` returns afterwards. -/
def captured (p : List Nat) (t : Bool) : Event := ⟨some p, ⟨p.length⟩, t⟩

/-- Identity request, then messages 1, 3, 5 and 7, each answered in time. -/
def acceptedRun : List Event :=
  [captured identityRequest false, captured (wscFrame 4) false, captured (wscFrame 7) false,
   captured (wscFrame 9) false, captured (wscFrame 11) false]

/-- Identity request, messages 1 and 3, then a rejection while message 5 is awaited. -/
def nackRun : List Event :=
  [captured identityRequest false, captured (wscFrame 4) false, captured (wscFrame 7) false,
   captured (wscFrame 14) false]

/-- Identity request, messages 1, 3 and 5, then a frame of another network at a moment
when the receive timer has expired: a timeout while message 7 is awaited. -/
def timeoutRun : List Event :=
  [captured identityRequest false, captured (wscFrame 4) false, captured (wscFrame 7) false,
   captured (wscFrame 9) false, captured foreignFrame true]

/-- Identity request, then an EAP failure that is handled in time. -/
def failRun : List Event := [captured identityRequest false, captured eapFailure false]

/-- Identity request, then an EAP failure at a moment when the receive timer, armed by
the identity response, has expired. -/
def failTimeoutRun : List Event := [captured identityRequest false, captured eapFailure true]

/-- A capture cut off right after the 802.1X header: a 26-byte radiotap header, the
802.11 data header from the target to the local station, the LLC/SNAP header of
802.1X and an 802.1X header of type EAP-Packet; 62 bytes, no EAP header. -/
def truncatedFrame : List Nat :=
  [0, 0, 26, 0, 47, 72, 0, 0, 0, 0, 0, 0, 0, 0, 0, 0, 16, 2, 108, 9, 160, 0, 200, 0, 0, 0] ++
  ([8, 2, 0, 0] ++ sampleMac ++ sampleBssid ++ sampleBssid ++ [0, 0]) ++
  [170, 170, 3, 0, 0, 0, 136, 142] ++ [1, 0, 0, 0]

/-- The session settings that the exchange loop only reads: what
`get_eap_terminate()` and `get_timeout_is_nack()` return, and the two addresses. -/
def settings (g : Globule) : Int × Int × List Nat × List Nat :=
  (g.eap_terminate, g.timeout_is_nack, g.bssid, g.mac)

/-- An EAP request of the expanded type with a one-byte WPS payload whose EAP header
declares a length of 5, less than the EAP and WFA headers together (14). -/
def shortLenFrame : List Nat :=
  eapFrame [1, 8, 0, 5, 254, 0, 55, 42, 0, 0, 0, 1, 4, 0, 16]

/-- An EAP request of the expanded type with a one-byte WPS payload whose EAP header
declares a length of 1000, far more than the 63 bytes of the frame. -/
def longLenFrame : List Nat :=
  eapFrame [1, 8, 3, 232, 254, 0, 55, 42, 0, 0, 0, 1, 4, 0, 16]

/-- EAP request, notification (type 2), identifier 9. -/
def notificationRequest : List Nat := eapFrame [1, 9, 0, 5, 2]

/-- The stand-in engine with an allocator that never obtains a buffer. -/
def noMemEnv : Env := { sampleEnv with alloc_ok := fun _ => false }

/-- No reply to the session initiation: 25 frames of another network, each at a moment
when the receive timer has expired. -/
def startTimeoutRun : List Event := List.replicate 25 (captured foreignFrame true)

/-- Session fields in the middle of an exchange: the engine awaits message 3
(state 15). -/
def awaitingM3 : Globule := { sampleGlobule 1 0 with wps := ⟨15, 0⟩ }

/-- An engine that leaves a trace of every call, with an allocator that never obtains a
buffer: `wps_registrar_process_msg` moves to the next state and counts the call in
`priv`. -/
def countingNoMemEnv : Env where
  wps_registrar_process_msg := fun w _ _ => { state := w.state + 1, priv := w.priv + 1 }
  wps_registrar_get_msg := fun w => { w with state := w.state + 1 }
  alloc_ok := fun _ => false
  wps_parse_msg := fun _ => none

/-! ## Frames that reach the EAP header and the WPS payload -/

/-- Offset of the EAP header when the 802.11 header starts at `fh` (lines 247-252). -/
def eap_off (d : Defs) (fh : Nat) : Nat :=
  fh + d.sizeof_dot11_frame_header + d.sizeof_llc_header + d.sizeof_dot1X_header

/-- Offset of the message handed to `process_wps_message` when the 802.11 header
starts at `fh` (lines 294-301). -/
def wps_msg_off (d : Defs) (fh : Nat) : Nat :=
  eap_off d fh + d.sizeof_eap_header + d.sizeof_wfa_expanded_header

/-- The conditions of lines 213-245 under which `process_packet` looks at the EAP
header: `header->len` is `len`, the radiotap header declares `fh` bytes, `fc` is the
first frame-control byte, and the length, address, frame-type, logical-link and
802.1X checks succeed for target address `bssid` and station address `mac`. -/
structure EapFrame (d : Defs) (p : List Nat) (len : Nat) (bssid mac : List Nat)
    (fh fc : Nat) : Prop where
  hlen : d.MIN_PACKET_SIZE ≤ len
  hrt : rd16le p d.rt_len_off = .ok fh
  haddr3 : rdN p (fh + d.addr3_off) d.MAC_ADDR_LEN = .ok (bssid.take d.MAC_ADDR_LEN)
  hfc : rd8 p (fh + d.fc_off) = .ok fc
  htype : fc_type fc = d.DATA_FRAME
  hsub : fc_sub_type fc = d.SUBTYPE_DATA
  haddr1 : rdN p (fh + d.addr1_off) d.MAC_ADDR_LEN = .ok (mac.take d.MAC_ADDR_LEN)
  hllc : rd16le p (fh + d.sizeof_dot11_frame_header + d.llc_type_off)
    = .ok d.DOT1X_AUTHENTICATION
  hdot1x : rd8 p (fh + d.sizeof_dot11_frame_header + d.sizeof_llc_header + d.dot1X_type_off)
    = .ok d.DOT1X_EAP_PACKET
  heapsize : d.EAP_PACKET_SIZE ≤ len

/-- The conditions of lines 255-269 under which `process_packet` takes the EAP request
branch: the EAP code is `EAP_REQUEST` (and that is not the failure code, which is
tested first); `id` is `eap->id` and `ty` is `eap->type`. -/
structure EapRequest (d : Defs) (p : List Nat) (len : Nat) (bssid mac : List Nat)
    (fh fc id ty : Nat) : Prop where
  frame : EapFrame d p len bssid mac fh fc
  hcode : rd8 p (eap_off d fh + d.eap_code_off) = .ok d.EAP_REQUEST
  hnotfail : d.EAP_REQUEST ≠ d.EAP_FAILURE
  hid : rd8 p (eap_off d fh + d.eap_id_off) = .ok id
  hty : rd8 p (eap_off d fh + d.eap_type_off) = .ok ty

/-- The conditions of lines 269-308 under which `process_packet` calls
`process_wps_message`: an EAP request of the expanded type (which is not the identity
type, tested first) in a packet longer than `WFA_PACKET_SIZE`, with vendor type
`SIMPLE_CONFIG`; `eap_len` is `ntohs(eap->len)` and `opcode` is `wfa->opcode`. -/
structure WpsFrame (d : Defs) (p : List Nat) (len : Nat) (bssid mac : List Nat)
    (fh fc id eap_len opcode : Nat) : Prop where
  request : EapRequest d p len bssid mac fh fc id d.EAP_EXPANDED
  hnotid : d.EAP_EXPANDED ≠ d.EAP_IDENTITY
  hwfasize : d.WFA_PACKET_SIZE < len
  hwfa : rd32le p (eap_off d fh + d.sizeof_eap_header + d.wfa_type_off) = .ok d.SIMPLE_CONFIG
  heaplen : rd16be p (eap_off d fh + d.eap_len_off) = .ok eap_len
  hopcode : rd8 p (eap_off d fh + d.sizeof_eap_header + d.wfa_opcode_off) = .ok opcode

/-- The session fields with which `process_packet` calls `process_wps_message`
(lines 263-308): the EAP identifier recorded, the timer stopped, the engine state
saved and the opcode recorded. -/
def wps_call_state (id opcode : Nat) (g : Globule) : Globule :=
  set_opcode opcode (set_last_wps_state g.wps.state (stop_timer (set_eap_id id g)))

/-! ## The settings are not written by the loop -/

theorem revert_state_settings (g : Globule) : settings (revert_state g) = settings g := by
  unfold revert_state
  split <;> rfl

theorem process_wps_message_settings (d : Defs) (env : Env) (p : List Nat)
    (data n : Nat) (g g1 : Globule) (t : Int)
    (h : process_wps_message d env p data n g = .ok (t, g1)) :
    settings g1 = settings g := by
  unfold process_wps_message at h
  split at h
  · cases h
  · cases h
    exact revert_state_settings g
  · simp only [] at h
    split_ifs at h
    · split at h
      · cases h
      · cases h
        exact revert_state_settings _
    · cases h
      exact revert_state_settings _
    · cases h
      exact revert_state_settings _

theorem process_expanded_settings (d : Defs) (env : Env) (p : List Nat)
    (len eap ty : Nat) (g g1 : Globule) (t : Int)
    (h : process_expanded d env p len eap ty g = .ok (t, g1)) :
    settings g1 = settings g := by
  unfold process_expanded at h
  split_ifs at h
  · simp only [] at h
    split at h
    · cases h
    · split_ifs at h
      · split at h
        · cases h
        · split at h
          · cases h
          · exact (process_wps_message_settings _ _ _ _ _ _ _ _ h).trans rfl
      · cases h
        rfl
  · cases h
    rfl

theorem process_eap_settings (d : Defs) (env : Env) (p : List Nat)
    (len eap : Nat) (g g1 : Globule) (t : Int)
    (h : process_eap d env p len eap g = .ok (t, g1)) :
    settings g1 = settings g := by
  unfold process_eap at h
  split at h
  · cases h
  · split_ifs at h
    · cases h
      rfl
    · split at h
      · cases h
      · simp only [] at h
        split at h
        · cases h
        · split_ifs at h
          · cases h
            rfl
          · exact (process_expanded_settings _ _ _ _ _ _ _ _ _ h).trans rfl
    · cases h
      rfl

theorem process_llc_settings (d : Defs) (env : Env) (p : List Nat)
    (len fh : Nat) (g g1 : Globule) (t : Int)
    (h : process_llc d env p len fh g = .ok (t, g1)) :
    settings g1 = settings g := by
  unfold process_llc at h
  simp only [] at h
  split at h
  · cases h
  · split_ifs at h
    · split at h
      · cases h
      · split_ifs at h
        · exact process_eap_settings _ _ _ _ _ _ _ _ h
        · cases h
          rfl
    · cases h
      rfl

theorem process_frame_settings (d : Defs) (env : Env) (p : List Nat)
    (len : Nat) (g g1 : Globule) (t : Int)
    (h : process_frame d env p len g = .ok (t, g1)) :
    settings g1 = settings g := by
  unfold process_frame at h
  split at h
  · cases h
  · split at h
    · cases h
    · split_ifs at h
      · split at h
        · cases h
        · split_ifs at h
          · split at h
            · cases h
            · split_ifs at h
              · exact process_llc_settings _ _ _ _ _ _ _ _ h
              · cases h
                rfl
          · cases h
            rfl
      · cases h
        rfl

theorem process_packet_settings (d : Defs) (env : Env) (packet : Option (List Nat))
    (header : Option pcap_pkthdr) (g g1 : Globule) (t : Int)
    (h : process_packet d env packet header g = .ok (t, g1)) :
    settings g1 = settings g := by
  unfold process_packet at h
  split at h
  · cases h
    rfl
  · cases h
    rfl
  · split_ifs at h
    · cases h
      rfl
    · exact process_frame_settings _ _ _ _ _ _ _ h

theorem react_settings (d : Defs) (env : Env) (t : Int) (l : Locals) (g : Globule) :
    settings (react d env t l g).2 = settings g := by
  unfold react
  split_ifs <;> rfl

theorem check_timeout_settings (d : Defs) (b : Bool) (l : Locals) (g : Globule) :
    settings (check_timeout d b l g).2 = settings g := by
  unfold check_timeout
  split_ifs <;> rfl

/-- The loop leaves the settings as they were when it was entered. -/
theorem exchange_loop_settings (d : Defs) (env : Env) (evs : List Event) :
    ∀ (l : Locals) (g : Globule) (l1 : Locals) (g1 : Globule),
      exchange_loop d env evs l g = .ok (l1, g1) → settings g1 = settings g := by
  induction evs with
  | nil =>
    intro l g l1 g1 h
    cases h
    rfl
  | cons ev evs ih =>
    intro l g l1 g1 h
    unfold exchange_loop at h
    split_ifs at h
    · split at h
      · cases h
        rfl
      · split at h
        · cases h
        · rename_i pt g2 hp
          split at h
          · cases h
          · rw [ih _ _ _ _ h, check_timeout_settings, react_settings]
            exact process_packet_settings _ _ _ _ _ _ _ hp
    · cases h
      rfl

/-- At the end of the loop `get_eap_terminate()` returns what it returned when
`do_wps_exchange` was called. -/
theorem exchange_loop_eap_terminate (d : Defs) (env : Env) (evs : List Event) (g : Globule)
    (l : Locals) (g1 : Globule)
    (hloop : exchange_loop d env evs (exchange_start g).1 (exchange_start g).2 = .ok (l, g1)) :
    g1.eap_terminate = g.eap_terminate :=
  congrArg Prod.fst (exchange_loop_settings d env evs _ _ _ _ hloop)

/-- At the end of the loop `get_timeout_is_nack()` returns what it returned when
`do_wps_exchange` was called. -/
theorem exchange_loop_timeout_is_nack (d : Defs) (env : Env) (evs : List Event) (g : Globule)
    (l : Locals) (g1 : Globule)
    (hloop : exchange_loop d env evs (exchange_start g).1 (exchange_start g).2 = .ok (l, g1)) :
    g1.timeout_is_nack = g.timeout_is_nack :=
  congrArg (fun x => x.2.1) (exchange_loop_settings d env evs _ _ _ _ hloop)

/-! ## The outcome of an exchange -/

/-- When the loop ends without a read error, `do_wps_exchange` returns the resolved
outcome and the session fields left by the cleanup. -/
theorem do_wps_exchange_of_loop (d : Defs) (env : Env) (evs : List Event) (g : Globule)
    (l : Locals) (g1 : Globule)
    (hloop : exchange_loop d env evs (exchange_start g).1 (exchange_start g).2 = .ok (l, g1)) :
    do_wps_exchange d env evs g
      = .ok ((resolve d l g1).1, cleanup l (resolve d l g1).1 (resolve d l g1).2) := by
  unfold do_wps_exchange
  rw [hloop]

/-- The outcome derivation after a rejection. -/
theorem resolve_nack (d : Defs) (l : Locals) (g : Globule) (hnack : l.got_nack = true) :
    resolve d l g
      = (if g.last_wps_state = d.RECV_M5 ∨ g.last_wps_state = d.RECV_M7
         then wps_result.KEY_REJECTED else wps_result.UNKNOWN_ERROR,
         set_timeout_is_nack 0 g) := by
  by_cases h : g.last_wps_state = d.RECV_M5 ∨ g.last_wps_state = d.RECV_M7 <;>
    simp [resolve, hnack, h, set_timeout_is_nack]

/-- The cleanup leaves every session field except the record of calls as it is. -/
theorem cleanup_fields (l : Locals) (r : wps_result) (g : Globule) :
    cleanup l r g = { g with log := (cleanup l r g).log } := by
  unfold cleanup send_wsc_nack send_termination stop_timer
  by_cases h1 : l.got_nack = true <;>
    by_cases h2 : g.eap_terminate ≠ 0 ∨ r = wps_result.EAP_FAIL <;>
    simp [h1, h2]

/-- The calls made by the cleanup, in order. -/
theorem cleanup_log (l : Locals) (r : wps_result) (g : Globule) :
    (cleanup l r g).log
      = g.log ++ (if l.got_nack then [Action.wsc_nack] else [])
          ++ (if g.eap_terminate ≠ 0 ∨ r = wps_result.EAP_FAIL then [Action.termination] else [])
          ++ [Action.stop_timer] := by
  unfold cleanup send_wsc_nack send_termination stop_timer
  by_cases h1 : l.got_nack = true <;>
    by_cases h2 : g.eap_terminate ≠ 0 ∨ r = wps_result.EAP_FAIL <;>
    simp [h1, h2]

/-- The outcome derivation changes the session fields only after a rejection, and
then only the timeout-is-rejection flag. -/
theorem resolve_snd (d : Defs) (l : Locals) (g : Globule) :
    (resolve d l g).2 = if l.got_nack then set_timeout_is_nack 0 g else g := by
  simp only [resolve]
  split_ifs <;> rfl

theorem set_timeout_is_nack_if_log (b : Bool) (g : Globule) :
    (if b then set_timeout_is_nack 0 g else g).log = g.log := by
  cases b <;> rfl

theorem set_timeout_is_nack_if_eap_terminate (b : Bool) (g : Globule) :
    (if b then set_timeout_is_nack 0 g else g).eap_terminate = g.eap_terminate := by
  cases b <;> rfl

/-- Claim C1, evaluated on the code: in the run "identity request, messages 1, 3, 5
and 7" the loop ends with `key_status = KEY_DONE` and without rejection, termination
or premature timeout, and `do_wps_exchange` returns `UNKNOWN_ERROR`, not
`KEY_ACCEPTED`. -/
theorem do_wps_exchange_after_message_7 :
    (exchange_loop sampleDefs sampleEnv acceptedRun (exchange_start (sampleGlobule 1 0)).1
        (exchange_start (sampleGlobule 1 0)).2).map (fun x => (x.1, x.2.key_status))
      = .ok ({ id_response_sent := true, premature_timeout := false, terminated := false,
               got_nack := false }, key_state.KEY_DONE) ∧
    (do_wps_exchange sampleDefs sampleEnv acceptedRun (sampleGlobule 1 0)).map Prod.fst
      = .ok wps_result.UNKNOWN_ERROR :=
  ⟨rfl, rfl⟩

/-- Claim C2: when a rejection was received, whatever the other flags are, the outcome
is `KEY_REJECTED` if the saved previous state is `RECV_M5` or `RECV_M7` and
`UNKNOWN_ERROR` otherwise, and the timeout-is-rejection flag is 0 on return. -/
theorem nack_outcome (d : Defs) (env : Env) (evs : List Event) (g : Globule)
    (l : Locals) (g1 : Globule)
    (hloop : exchange_loop d env evs (exchange_start g).1 (exchange_start g).2 = .ok (l, g1))
    (hnack : l.got_nack = true) :
    ∃ gf, do_wps_exchange d env evs g
        = .ok (if g1.last_wps_state = d.RECV_M5 ∨ g1.last_wps_state = d.RECV_M7
               then wps_result.KEY_REJECTED else wps_result.UNKNOWN_ERROR, gf) ∧
      gf.timeout_is_nack = 0 := by
  rw [do_wps_exchange_of_loop d env evs g l g1 hloop, resolve_nack d l g1 hnack]
  refine ⟨_, rfl, ?_⟩
  rw [cleanup_fields]
  rfl

/-- Witness for `nack_outcome`: a rejection while message 5 is awaited. -/
theorem nack_outcome_witness :
    ∃ gf, do_wps_exchange sampleDefs sampleEnv nackRun (sampleGlobule 1 0)
        = .ok (wps_result.KEY_REJECTED, gf) ∧ gf.timeout_is_nack = 0 :=
  nack_outcome sampleDefs sampleEnv nackRun (sampleGlobule 1 0)
    ⟨true, false, false, true⟩ _ rfl rfl

/-- Claim C3: after a premature timeout without rejection the outcome is
`KEY_REJECTED` exactly when the timeout-is-rejection flag is set and the engine state
is `RECV_M5` or `RECV_M7`, and `RX_TIMEOUT` otherwise; with the engine in `RECV_M7` the
flag alone decides. -/
theorem timeout_outcome (d : Defs) (env : Env) (evs : List Event) (g : Globule)
    (l : Locals) (g1 : Globule)
    (hloop : exchange_loop d env evs (exchange_start g).1 (exchange_start g).2 = .ok (l, g1))
    (htimeout : l.premature_timeout = true) (hnack : l.got_nack = false) :
    ∃ r gf, do_wps_exchange d env evs g = .ok (r, gf) ∧
      (r = wps_result.KEY_REJECTED ↔
        (g.timeout_is_nack ≠ 0 ∧ (g1.wps.state = d.RECV_M5 ∨ g1.wps.state = d.RECV_M7))) ∧
      (r ≠ wps_result.KEY_REJECTED → r = wps_result.RX_TIMEOUT) ∧
      (g1.wps.state = d.RECV_M7 → g.timeout_is_nack ≠ 0 → r = wps_result.KEY_REJECTED) ∧
      (g1.wps.state = d.RECV_M7 → g.timeout_is_nack = 0 → r = wps_result.RX_TIMEOUT) := by
  rw [do_wps_exchange_of_loop d env evs g l g1 hloop,
    ← exchange_loop_timeout_is_nack d env evs g l g1 hloop]
  refine ⟨_, _, rfl, ?_⟩
  by_cases hc : g1.timeout_is_nack ≠ 0 ∧ (g1.wps.state = d.RECV_M5 ∨ g1.wps.state = d.RECV_M7)
  · have hr : (resolve d l g1).1 = wps_result.KEY_REJECTED := by
      simp only [resolve, hnack, htimeout]
      rw [if_pos hc]
      rfl
    rw [hr]
    refine ⟨⟨fun _ => hc, fun _ => rfl⟩, fun h => absurd rfl h, fun _ _ => rfl, ?_⟩
    intro _ h0
    exact absurd h0 hc.1
  · have hr : (resolve d l g1).1 = wps_result.RX_TIMEOUT := by
      simp only [resolve, hnack, htimeout]
      rw [if_neg hc]
      rfl
    rw [hr]
    refine ⟨⟨fun h => (by cases h), fun h => absurd h hc⟩, fun _ => rfl, ?_, fun _ _ => rfl⟩
    intro h7 hne
    exact absurd ⟨hne, Or.inr h7⟩ hc

/-- Witness for `timeout_outcome`: a timeout while message 7 is awaited (engine state
19), with the timeout-is-rejection flag set. -/
theorem timeout_outcome_witness :
    ∃ r gf, do_wps_exchange sampleDefs sampleEnv timeoutRun (sampleGlobule 1 0) = .ok (r, gf) ∧
      (r = wps_result.KEY_REJECTED ↔
        ((sampleGlobule 1 0).timeout_is_nack ≠ 0 ∧
          ((19 : Int) = sampleDefs.RECV_M5 ∨ (19 : Int) = sampleDefs.RECV_M7))) ∧
      (r ≠ wps_result.KEY_REJECTED → r = wps_result.RX_TIMEOUT) ∧
      ((19 : Int) = sampleDefs.RECV_M7 → (sampleGlobule 1 0).timeout_is_nack ≠ 0 →
        r = wps_result.KEY_REJECTED) ∧
      ((19 : Int) = sampleDefs.RECV_M7 → (sampleGlobule 1 0).timeout_is_nack = 0 →
        r = wps_result.RX_TIMEOUT) :=
  timeout_outcome sampleDefs sampleEnv timeoutRun (sampleGlobule 1 0)
    ⟨true, true, false, false⟩ _ rfl rfl rfl

/-- The outcome derivation when no rejection and no premature timeout was recorded
and a termination was. -/
theorem resolve_terminated (d : Defs) (l : Locals) (g : Globule) (hnack : l.got_nack = false)
    (htimeout : l.premature_timeout = false) (hterm : l.terminated = true) :
    resolve d l g = (wps_result.EAP_FAIL, g) := by
  simp [resolve, hnack, htimeout, hterm]

/-- Claim C4 as stated fails: in the run "identity request, then an EAP failure when
the receive timer has expired" a termination and no rejection was received, and the
outcome is `RX_TIMEOUT`. -/
theorem eap_failure_with_timeout_is_rx_timeout :
    (exchange_loop sampleDefs sampleEnv failTimeoutRun (exchange_start (sampleGlobule 1 0)).1
        (exchange_start (sampleGlobule 1 0)).2).map Prod.fst
      = .ok { id_response_sent := true, premature_timeout := true, terminated := true,
              got_nack := false } ∧
    (do_wps_exchange sampleDefs sampleEnv failTimeoutRun (sampleGlobule 1 0)).map Prod.fst
      = .ok wps_result.RX_TIMEOUT :=
  ⟨rfl, rfl⟩

/-- Claim C4, amended: when a termination was received and neither a rejection nor a
premature timeout was recorded, the outcome is `EAP_FAIL`. -/
theorem eap_failure_outcome (d : Defs) (env : Env) (evs : List Event) (g : Globule)
    (l : Locals) (g1 : Globule)
    (hloop : exchange_loop d env evs (exchange_start g).1 (exchange_start g).2 = .ok (l, g1))
    (hterm : l.terminated = true) (hnack : l.got_nack = false)
    (htimeout : l.premature_timeout = false) :
    ∃ gf, do_wps_exchange d env evs g = .ok (wps_result.EAP_FAIL, gf) := by
  rw [do_wps_exchange_of_loop d env evs g l g1 hloop,
    resolve_terminated d l g1 hnack htimeout hterm]
  exact ⟨_, rfl⟩

/-- Witness for `eap_failure_outcome`: identity request, then an EAP failure. -/
theorem eap_failure_outcome_witness :
    ∃ gf, do_wps_exchange sampleDefs sampleEnv failRun (sampleGlobule 1 0)
      = .ok (wps_result.EAP_FAIL, gf) :=
  eap_failure_outcome sampleDefs sampleEnv failRun (sampleGlobule 1 0)
    ⟨true, false, true, false⟩ _ rfl rfl rfl rfl

/-- Claim C5 as stated fails: in the run "identity request, then an EAP failure when
the receive timer has expired", with `get_eap_terminate()` returning 0, a termination
was received in the loop and no session-termination message is sent at all. -/
theorem eap_failure_with_timeout_sends_no_termination :
    (exchange_loop sampleDefs sampleEnv failTimeoutRun (exchange_start (sampleGlobule 0 0)).1
        (exchange_start (sampleGlobule 0 0)).2).map (fun x => x.1.terminated)
      = .ok true ∧
    (do_wps_exchange sampleDefs sampleEnv failTimeoutRun (sampleGlobule 0 0)).map
        (fun x => x.2.log)
      = .ok [Action.eapol_start, Action.stop_timer, Action.identity_response,
             Action.stop_timer] :=
  ⟨rfl, rfl⟩

/-- Claim C5, amended: the cleanup sends a session-termination message, after the
rejection acknowledgment if there is one and before the timer is stopped, when the
outcome is `EAP_FAIL` or `get_eap_terminate()` is non-zero, and sends none otherwise. -/
theorem cleanup_sends_termination (d : Defs) (env : Env) (evs : List Event) (g : Globule)
    (l : Locals) (g1 : Globule)
    (hloop : exchange_loop d env evs (exchange_start g).1 (exchange_start g).2 = .ok (l, g1)) :
    ∃ r gf, do_wps_exchange d env evs g = .ok (r, gf) ∧
      (r = wps_result.EAP_FAIL ∨ g.eap_terminate ≠ 0 →
        gf.log = g1.log ++ (if l.got_nack then [Action.wsc_nack] else [])
                  ++ [Action.termination, Action.stop_timer]) ∧
      (¬ (r = wps_result.EAP_FAIL ∨ g.eap_terminate ≠ 0) →
        gf.log = g1.log ++ (if l.got_nack then [Action.wsc_nack] else [])
                  ++ [Action.stop_timer]) := by
  rw [do_wps_exchange_of_loop d env evs g l g1 hloop,
    ← exchange_loop_eap_terminate d env evs g l g1 hloop]
  refine ⟨_, _, rfl, ?_, ?_⟩
  · intro h
    rw [cleanup_log, resolve_snd, set_timeout_is_nack_if_log,
      set_timeout_is_nack_if_eap_terminate, if_pos (Or.symm h)]
    simp
  · intro h
    rw [cleanup_log, resolve_snd, set_timeout_is_nack_if_log,
      set_timeout_is_nack_if_eap_terminate, if_neg (fun h2 => h (Or.symm h2))]
    simp

/-- Witness for `cleanup_sends_termination`: identity request, then an EAP failure. -/
theorem cleanup_sends_termination_witness :
    ∃ r gf, do_wps_exchange sampleDefs sampleEnv failRun (sampleGlobule 1 0) = .ok (r, gf) ∧
      (r = wps_result.EAP_FAIL ∨ (sampleGlobule 1 0).eap_terminate ≠ 0 →
        gf.log = [Action.eapol_start, Action.stop_timer, Action.identity_response]
                  ++ (if false then [Action.wsc_nack] else [])
                  ++ [Action.termination, Action.stop_timer]) ∧
      (¬ (r = wps_result.EAP_FAIL ∨ (sampleGlobule 1 0).eap_terminate ≠ 0) →
        gf.log = [Action.eapol_start, Action.stop_timer, Action.identity_response]
                  ++ (if false then [Action.wsc_nack] else [])
                  ++ [Action.stop_timer]) :=
  cleanup_sends_termination sampleDefs sampleEnv failRun (sampleGlobule 1 0)
    ⟨true, false, true, false⟩ _ rfl

/-- Claim C6 as stated fails: in the run "identity request, messages 1 and 3, then a
rejection while message 5 is awaited", with `get_eap_terminate()` returning 1, the
outcome is `KEY_REJECTED` and the cleanup sends a session-termination message after
the rejection acknowledgment. -/
theorem nack_cleanup_sends_termination :
    (exchange_loop sampleDefs sampleEnv nackRun (exchange_start (sampleGlobule 1 1)).1
        (exchange_start (sampleGlobule 1 1)).2).map
        (fun x => (x.1.got_nack, decide (x.2.last_wps_state = sampleDefs.RECV_M5), x.2.log))
      = .ok (true, true,
          [Action.eapol_start, Action.stop_timer, Action.identity_response, Action.stop_timer,
           Action.msg, Action.stop_timer, Action.msg, Action.stop_timer]) ∧
    (do_wps_exchange sampleDefs sampleEnv nackRun (sampleGlobule 1 1)).map
        (fun x => (x.1, x.2.log))
      = .ok (wps_result.KEY_REJECTED,
          [Action.eapol_start, Action.stop_timer, Action.identity_response, Action.stop_timer,
           Action.msg, Action.stop_timer, Action.msg, Action.stop_timer,
           Action.wsc_nack, Action.termination, Action.stop_timer]) :=
  ⟨rfl, rfl⟩

/-- Claim C6, amended: when a rejection arrived while the saved previous state was
`RECV_M5`, the outcome is `KEY_REJECTED` and the cleanup sends exactly one rejection
acknowledgment, followed by a session-termination message exactly when
`get_eap_terminate()` is non-zero. -/
theorem nack_at_m5_outcome_and_cleanup (d : Defs) (env : Env) (evs : List Event) (g : Globule)
    (l : Locals) (g1 : Globule)
    (hloop : exchange_loop d env evs (exchange_start g).1 (exchange_start g).2 = .ok (l, g1))
    (hnack : l.got_nack = true) (hprev : g1.last_wps_state = d.RECV_M5) :
    ∃ gf, do_wps_exchange d env evs g = .ok (wps_result.KEY_REJECTED, gf) ∧
      gf.log = g1.log ++ [Action.wsc_nack]
                ++ (if g.eap_terminate ≠ 0 then [Action.termination] else [])
                ++ [Action.stop_timer] := by
  rw [do_wps_exchange_of_loop d env evs g l g1 hloop, resolve_nack d l g1 hnack,
    if_pos (Or.inl hprev), ← exchange_loop_eap_terminate d env evs g l g1 hloop]
  refine ⟨_, rfl, ?_⟩
  rw [cleanup_log]
  simp [hnack, set_timeout_is_nack]

/-- Witness for `nack_at_m5_outcome_and_cleanup`: a rejection while message 5 is
awaited, with `get_eap_terminate()` returning 0. -/
theorem nack_at_m5_outcome_and_cleanup_witness :
    ∃ gf, do_wps_exchange sampleDefs sampleEnv nackRun (sampleGlobule 1 0)
        = .ok (wps_result.KEY_REJECTED, gf) ∧
      gf.log = [Action.eapol_start, Action.stop_timer, Action.identity_response,
                Action.stop_timer, Action.msg, Action.stop_timer, Action.msg,
                Action.stop_timer] ++ [Action.wsc_nack]
                ++ (if (sampleGlobule 1 0).eap_terminate ≠ 0 then [Action.termination] else [])
                ++ [Action.stop_timer] :=
  nack_at_m5_outcome_and_cleanup sampleDefs sampleEnv nackRun (sampleGlobule 1 0)
    ⟨true, false, false, true⟩ _ rfl rfl rfl

/-! ## The frame decoder -/

/-- Claim C7: a frame that passes the length, address, frame-type, logical-link and
802.1X checks and whose EAP code is `EAP_FAILURE` is classified `TERMINATE`, whatever
else the packet contains and whatever the engine would do; no session field changes
(in particular not the engine state, the saved previous state or the opcode). -/
theorem process_packet_eap_failure (d : Defs) (env : Env) (p : List Nat) (h : pcap_pkthdr)
    (g : Globule) (fh fc : Nat)
    (hlen : d.MIN_PACKET_SIZE ≤ h.len)
    (hrt : rd16le p d.rt_len_off = .ok fh)
    (haddr3 : rdN p (fh + d.addr3_off) d.MAC_ADDR_LEN = .ok (g.bssid.take d.MAC_ADDR_LEN))
    (hfc : rd8 p (fh + d.fc_off) = .ok fc)
    (htype : fc_type fc = d.DATA_FRAME) (hsub : fc_sub_type fc = d.SUBTYPE_DATA)
    (haddr1 : rdN p (fh + d.addr1_off) d.MAC_ADDR_LEN = .ok (g.mac.take d.MAC_ADDR_LEN))
    (hllc : rd16le p (fh + d.sizeof_dot11_frame_header + d.llc_type_off)
      = .ok d.DOT1X_AUTHENTICATION)
    (hdot1x : rd8 p (fh + d.sizeof_dot11_frame_header + d.sizeof_llc_header + d.dot1X_type_off)
      = .ok d.DOT1X_EAP_PACKET)
    (heapsize : d.EAP_PACKET_SIZE ≤ h.len)
    (hcode : rd8 p (fh + d.sizeof_dot11_frame_header + d.sizeof_llc_header
        + d.sizeof_dot1X_header + d.eap_code_off) = .ok d.EAP_FAILURE) :
    process_packet d env (some p) (some h) g = .ok (d.TERMINATE, g) := by
  simp only [process_packet, process_frame, process_llc, process_eap, hrt, haddr3, hfc, haddr1,
    hllc, hdot1x, hcode, Nat.not_lt.mpr hlen, htype, hsub, heapsize, if_true, if_false,
    and_self, ge_iff_le]

/-- Witness for `process_packet_eap_failure`: the EAP failure frame of the concrete
runs. -/
theorem process_packet_eap_failure_witness :
    process_packet sampleDefs sampleEnv (some eapFailure) (some ⟨eapFailure.length⟩)
        (sampleGlobule 1 0)
      = .ok (sampleDefs.TERMINATE, sampleGlobule 1 0) :=
  process_packet_eap_failure sampleDefs sampleEnv eapFailure ⟨eapFailure.length⟩
    (sampleGlobule 1 0) 8 8 (by decide) rfl rfl rfl rfl rfl rfl rfl rfl (by decide) rfl

/-- Claim C8: a frame whose third address differs from the target address, or whose
first address differs from the local station address, is classified `UNKNOWN` (the
spec's `NONE`) and no session field changes. -/
theorem process_packet_address_mismatch (d : Defs) (env : Env) (p : List Nat)
    (h : pcap_pkthdr) (g : Globule) (fh fc : Nat) (addr3 addr1 : List Nat)
    (hrt : rd16le p d.rt_len_off = .ok fh)
    (haddr3 : rdN p (fh + d.addr3_off) d.MAC_ADDR_LEN = .ok addr3)
    (hfc : rd8 p (fh + d.fc_off) = .ok fc)
    (haddr1 : rdN p (fh + d.addr1_off) d.MAC_ADDR_LEN = .ok addr1)
    (hne : addr3 ≠ g.bssid.take d.MAC_ADDR_LEN ∨ addr1 ≠ g.mac.take d.MAC_ADDR_LEN) :
    process_packet d env (some p) (some h) g = .ok (d.UNKNOWN, g) := by
  simp only [process_packet, process_frame, hrt, haddr3, hfc, haddr1]
  split_ifs with h1 h2 h3 h4
  · rfl
  · rcases hne with hne | hne
    · exact absurd h2 hne
    · exact absurd h4 hne
  all_goals rfl

/-- Witness for `process_packet_address_mismatch`: a frame of another network. -/
theorem process_packet_address_mismatch_witness :
    process_packet sampleDefs sampleEnv (some foreignFrame) (some ⟨foreignFrame.length⟩)
        (sampleGlobule 1 0)
      = .ok (sampleDefs.UNKNOWN, sampleGlobule 1 0) :=
  process_packet_address_mismatch sampleDefs sampleEnv foreignFrame ⟨foreignFrame.length⟩
    (sampleGlobule 1 0) 8 8 [9, 9, 9, 9, 9, 9] sampleMac rfl rfl rfl rfl
    (Or.inl (by decide))

/-- Claim C9: for a null packet, a null header, or a header whose `len` is below
`MIN_PACKET_SIZE`, `process_packet` returns `UNKNOWN` (the spec's `NONE`) and leaves
the session fields alone; it does so also when no byte of the packet can be read
(every read of an empty capture is an error), so no byte is read. -/
theorem process_packet_too_short (d : Defs) (env : Env) (packet : Option (List Nat))
    (header : Option pcap_pkthdr) (g : Globule)
    (hshort : packet = none ∨ header = none ∨
      ∃ h, header = some h ∧ h.len < d.MIN_PACKET_SIZE) :
    process_packet d env packet header g = .ok (d.UNKNOWN, g) ∧
    process_packet d env (packet.map (fun _ => [])) header g = .ok (d.UNKNOWN, g) := by
  rcases hshort with hp | hh | ⟨h, hh, hlt⟩
  · subst hp
    exact ⟨rfl, rfl⟩
  · subst hh
    cases packet <;> exact ⟨rfl, rfl⟩
  · subst hh
    cases packet with
    | none => exact ⟨rfl, rfl⟩
    | some p => simp [process_packet, hlt]

/-- Witness for `process_packet_too_short`: a 43-byte capture. -/
theorem process_packet_too_short_witness :
    process_packet sampleDefs sampleEnv (some (identityRequest.take 43)) (some ⟨43⟩)
        (sampleGlobule 1 0) = .ok (sampleDefs.UNKNOWN, sampleGlobule 1 0) ∧
    process_packet sampleDefs sampleEnv ((some (identityRequest.take 43)).map (fun _ => []))
        (some ⟨43⟩) (sampleGlobule 1 0) = .ok (sampleDefs.UNKNOWN, sampleGlobule 1 0) :=
  process_packet_too_short sampleDefs sampleEnv (some (identityRequest.take 43)) (some ⟨43⟩)
    (sampleGlobule 1 0) (Or.inr (Or.inr ⟨⟨43⟩, rfl, by decide⟩))

/-- Whatever the values of the constants: when the radiotap header declares a length
that puts the third address field outside the captured bytes, a packet that passes
the check of `header->len` against `MIN_PACKET_SIZE` is read outside the captured
bytes. -/
theorem process_packet_reads_past_frame (d : Defs) (env : Env) (p : List Nat)
    (h : pcap_pkthdr) (g : Globule) (fh : Nat)
    (hlen : d.MIN_PACKET_SIZE ≤ h.len) (hmac : d.MAC_ADDR_LEN ≠ 0)
    (hrt : rd16le p d.rt_len_off = .ok fh)
    (hpast : p.length < fh + d.addr3_off + d.MAC_ADDR_LEN) :
    ∃ off, p.length ≤ off ∧ process_packet d env (some p) (some h) g = .error off := by
  refine ⟨max (fh + d.addr3_off) p.length, le_max_right _ _, ?_⟩
  have hrd : rdN p (fh + d.addr3_off) d.MAC_ADDR_LEN
      = .error (max (fh + d.addr3_off) p.length) := by
    unfold rdN
    rw [if_neg hmac, if_neg (Nat.not_le.mpr hpast)]
  simp only [process_packet, process_frame, hrt, hrd, Nat.not_lt.mpr hlen, if_false]

/-- Claim C10, evaluated on the code: for the 62-byte capture `truncatedFrame`, whose
radiotap header declares 26 bytes, the declared length plus the sizes of the headers
stacked after it (24 + 8 + 4 + 5) exceeds the frame length, the length checks pass,
and `process_packet` reads the EAP code at offset 62, outside the frame, instead of
returning `UNKNOWN`. -/
theorem process_packet_reads_past_truncated_frame :
    truncatedFrame.length = 62 ∧
    rd16le truncatedFrame sampleDefs.rt_len_off = .ok 26 ∧
    truncatedFrame.length < 26 + (sampleDefs.sizeof_dot11_frame_header
      + sampleDefs.sizeof_llc_header + sampleDefs.sizeof_dot1X_header
      + sampleDefs.sizeof_eap_header) ∧
    process_packet sampleDefs sampleEnv (some truncatedFrame) (some ⟨truncatedFrame.length⟩)
        (sampleGlobule 1 0) = .error 62 :=
  ⟨rfl, rfl, by decide, rfl⟩

/-! ## Which branch of `process_packet` a packet takes -/

/-- A packet that passes the checks of lines 213-245 is handled by the EAP branch. -/
theorem process_packet_of_EapFrame (d : Defs) (env : Env) (p : List Nat) (h : pcap_pkthdr)
    (g : Globule) (fh fc : Nat) (hf : EapFrame d p h.len g.bssid g.mac fh fc) :
    process_packet d env (some p) (some h) g = process_eap d env p h.len (eap_off d fh) g := by
  simp only [process_packet, process_frame, process_llc, eap_off, hf.hrt, hf.haddr3, hf.hfc,
    hf.haddr1, hf.hllc, hf.hdot1x, Nat.not_lt.mpr hf.hlen, hf.htype, hf.hsub, hf.heapsize,
    if_true, if_false, and_self, ge_iff_le]

/-- A packet that passes the checks of lines 213-308 is handed to
`process_wps_message`: the message starts at `wps_msg_off`, its length is
`wps_msg_len` of the declared EAP length. -/
theorem process_packet_of_WpsFrame (d : Defs) (env : Env) (p : List Nat) (h : pcap_pkthdr)
    (g : Globule) (fh fc id eap_len opcode : Nat)
    (hf : WpsFrame d p h.len g.bssid g.mac fh fc id eap_len opcode) :
    process_packet d env (some p) (some h) g
      = process_wps_message d env p (wps_msg_off d fh) (wps_msg_len d eap_len)
          (wps_call_state id opcode g) := by
  rw [process_packet_of_EapFrame d env p h g fh fc hf.request.frame]
  have hne : ¬ d.EAP_REQUEST = d.EAP_FAILURE := hf.request.hnotfail
  have hni : ¬ d.EAP_EXPANDED = d.EAP_IDENTITY := hf.hnotid
  have hw : h.len > d.WFA_PACKET_SIZE := hf.hwfasize
  simp only [process_eap, process_expanded, hf.request.hcode, hf.request.hid, hf.request.hty,
    hf.hwfa, hf.heaplen, hf.hopcode, hne, hni, hw, if_true, if_false, and_self,
    wps_call_state, wps_msg_off]
  rfl

/-- Every packet that `process_packet` classifies without a read error either leaves
the session fields alone, or passes the checks of lines 213-245 and is handled by the
EAP branch. -/
theorem process_packet_cases (d : Defs) (env : Env) (p : List Nat) (h : pcap_pkthdr)
    (g g1 : Globule) (t : Int)
    (hret : process_packet d env (some p) (some h) g = .ok (t, g1)) :
    (t = d.UNKNOWN ∧ g1 = g) ∨
    ∃ fh fc, EapFrame d p h.len g.bssid g.mac fh fc ∧
      process_eap d env p h.len (eap_off d fh) g = .ok (t, g1) := by
  unfold process_packet at hret
  simp only [] at hret
  split_ifs at hret with hlen
  · cases hret
    exact Or.inl ⟨rfl, rfl⟩
  · unfold process_frame at hret
    split at hret
    · cases hret
    · rename_i fh hrt
      split at hret
      · cases hret
      · rename_i addr3 haddr3
        split_ifs at hret with h3
        · split at hret
          · cases hret
          · rename_i fc hfc
            split_ifs at hret with hty
            · split at hret
              · cases hret
              · rename_i addr1 haddr1
                split_ifs at hret with h1
                · unfold process_llc at hret
                  simp only [] at hret
                  split at hret
                  · cases hret
                  · rename_i llc_type hllc
                    split_ifs at hret with hl
                    · split at hret
                      · cases hret
                      · rename_i dot1x_type hdot1x
                        split_ifs at hret with hx
                        · refine Or.inr ⟨fh, fc, ⟨Nat.not_lt.mp hlen, hrt, h3 ▸ haddr3, hfc,
                            hty.1, hty.2, h1 ▸ haddr1, hl ▸ hllc, hx.1 ▸ hdot1x, hx.2⟩, hret⟩
                        · cases hret
                          exact Or.inl ⟨rfl, rfl⟩
                    · cases hret
                      exact Or.inl ⟨rfl, rfl⟩
                · cases hret
                  exact Or.inl ⟨rfl, rfl⟩
            · cases hret
              exact Or.inl ⟨rfl, rfl⟩
        · cases hret
          exact Or.inl ⟨rfl, rfl⟩

/-- An EAP header that `process_eap` classifies without a read error either leaves the
session fields alone (failure code, or a code that is not the request code), or is a
request: then the identifier is recorded and the timer stopped, and an identity
request also clears the start count while any other type goes on to the
expanded-type branch. -/
theorem process_eap_cases (d : Defs) (env : Env) (p : List Nat) (len eap : Nat)
    (g g1 : Globule) (t : Int)
    (hret : process_eap d env p len eap g = .ok (t, g1)) :
    g1 = g ∨
    ∃ id ty, rd8 p (eap + d.eap_code_off) = .ok d.EAP_REQUEST ∧ d.EAP_REQUEST ≠ d.EAP_FAILURE ∧
      rd8 p (eap + d.eap_id_off) = .ok id ∧ rd8 p (eap + d.eap_type_off) = .ok ty ∧
      ((ty = d.EAP_IDENTITY ∧ t = d.IDENTITY_REQUEST ∧
          g1 = set_eapol_start_count 0 (stop_timer (set_eap_id id g))) ∨
       (ty ≠ d.EAP_IDENTITY ∧
          process_expanded d env p len eap ty (stop_timer (set_eap_id id g)) = .ok (t, g1))) := by
  unfold process_eap at hret
  split at hret
  · cases hret
  · rename_i code hcode
    split_ifs at hret with hfail hreq
    · cases hret
      exact Or.inl rfl
    · split at hret
      · cases hret
      · rename_i id hid
        simp only [] at hret
        split at hret
        · cases hret
        · rename_i ty hty
          refine Or.inr ⟨id, ty, hreq ▸ hcode, fun he => hfail (hreq.trans he), hid, hty, ?_⟩
          split_ifs at hret with hident
          · cases hret
            exact Or.inl ⟨hident, rfl, rfl⟩
          · exact Or.inr ⟨hident, hret⟩
    · cases hret
      exact Or.inl rfl

/-- The expanded-type branch either classifies the packet `UNKNOWN` and leaves the
session fields alone, or saves the engine state, records the opcode and calls
`process_wps_message`. -/
theorem process_expanded_cases (d : Defs) (env : Env) (p : List Nat) (len eap ty : Nat)
    (g g1 : Globule) (t : Int)
    (hret : process_expanded d env p len eap ty g = .ok (t, g1)) :
    (t = d.UNKNOWN ∧ g1 = g) ∨
    ∃ eap_len opcode, ty = d.EAP_EXPANDED ∧ d.WFA_PACKET_SIZE < len ∧
      rd32le p (eap + d.sizeof_eap_header + d.wfa_type_off) = .ok d.SIMPLE_CONFIG ∧
      rd16be p (eap + d.eap_len_off) = .ok eap_len ∧
      rd8 p (eap + d.sizeof_eap_header + d.wfa_opcode_off) = .ok opcode ∧
      process_wps_message d env p (eap + d.sizeof_eap_header + d.sizeof_wfa_expanded_header)
          (wps_msg_len d eap_len) (set_opcode opcode (set_last_wps_state g.wps.state g))
        = .ok (t, g1) := by
  unfold process_expanded at hret
  split_ifs at hret with hexp
  · simp only [] at hret
    split at hret
    · cases hret
    · rename_i wfa_type hwfa
      split_ifs at hret with hsc
      · split at hret
        · cases hret
        · rename_i eap_len heaplen
          split at hret
          · cases hret
          · rename_i opcode hopcode
            exact Or.inr ⟨eap_len, opcode, hexp.1, hexp.2, hsc ▸ hwfa, heaplen, hopcode, hret⟩
      · cases hret
        exact Or.inl ⟨rfl, rfl⟩
  · cases hret
    exact Or.inl ⟨rfl, rfl⟩

/-- The three ways in which `process_packet` classifies a packet without a read error:
the session fields are left alone; or the packet is an EAP request that is not handed
to `process_wps_message`, its identifier is recorded and the timer stopped (and the
start count cleared for an identity request); or the packet is handed to
`process_wps_message`. -/
theorem process_packet_branches (d : Defs) (env : Env) (p : List Nat) (h : pcap_pkthdr)
    (g g1 : Globule) (t : Int)
    (hret : process_packet d env (some p) (some h) g = .ok (t, g1)) :
    g1 = g ∨
    (∃ fh fc id ty, EapRequest d p h.len g.bssid g.mac fh fc id ty ∧
      ((t = d.IDENTITY_REQUEST ∧
          g1 = set_eapol_start_count 0 (stop_timer (set_eap_id id g))) ∨
       (t = d.UNKNOWN ∧ g1 = stop_timer (set_eap_id id g)))) ∨
    (∃ fh fc id eap_len opcode, WpsFrame d p h.len g.bssid g.mac fh fc id eap_len opcode ∧
      process_wps_message d env p (wps_msg_off d fh) (wps_msg_len d eap_len)
          (wps_call_state id opcode g) = .ok (t, g1)) := by
  rcases process_packet_cases d env p h g g1 t hret with ⟨_, hg⟩ | ⟨fh, fc, hframe, heap⟩
  · exact Or.inl hg
  · rcases process_eap_cases d env p h.len (eap_off d fh) g g1 t heap with
      hg | ⟨id, ty, hcode, hnf, hid, hty, hrest⟩
    · exact Or.inl hg
    · have hreq : EapRequest d p h.len g.bssid g.mac fh fc id ty := ⟨hframe, hcode, hnf, hid, hty⟩
      rcases hrest with ⟨_, ht, hg⟩ | ⟨hni, hexp⟩
      · exact Or.inr (Or.inl ⟨fh, fc, id, ty, hreq, Or.inl ⟨ht, hg⟩⟩)
      · rcases process_expanded_cases d env p h.len (eap_off d fh) ty _ g1 t hexp with
          ⟨ht, hg⟩ | ⟨eap_len, opcode, htyx, hsize, hwfa, heaplen, hopcode, hmsg⟩
        · exact Or.inr (Or.inl ⟨fh, fc, id, ty, hreq, Or.inr ⟨ht, hg⟩⟩)
        · subst htyx
          exact Or.inr (Or.inr ⟨fh, fc, id, eap_len, opcode,
            ⟨hreq, fun he => hni he, hsize, hwfa, heaplen, hopcode⟩, hmsg⟩)

/-- `process_wps_message` writes only the engine data and the rejection reason. -/
theorem process_wps_message_fields (d : Defs) (env : Env) (p : List Nat) (data n : Nat)
    (g g1 : Globule) (t : Int)
    (hret : process_wps_message d env p data n g = .ok (t, g1)) :
    ∃ w r, g1 = { g with wps := w, nack_reason := r } := by
  have hrev : ∀ g0 : Globule, ∃ w, revert_state g0 = { g0 with wps := w } := by
    intro g0
    unfold revert_state
    split
    · exact ⟨_, rfl⟩
    · exact ⟨g0.wps, rfl⟩
  unfold process_wps_message at hret
  split at hret
  · cases hret
  · cases hret
    obtain ⟨w, hw⟩ := hrev g
    exact ⟨w, g.nack_reason, hw⟩
  · simp only [] at hret
    split_ifs at hret
    · split at hret
      · cases hret
      · cases hret
        rename_i r _
        obtain ⟨w, hw⟩ := hrev (set_nack_reason r
          { g with wps := env.wps_registrar_process_msg g.wps g.opcode _ })
        exact ⟨w, r, hw⟩
    · cases hret
      obtain ⟨w, hw⟩ := hrev { g with wps := env.wps_registrar_process_msg g.wps g.opcode _ }
      exact ⟨w, g.nack_reason, hw⟩
    · cases hret
      obtain ⟨w, hw⟩ := hrev { g with wps := env.wps_registrar_process_msg g.wps g.opcode _ }
      exact ⟨w, g.nack_reason, hw⟩

/-! ## The payload handed to `process_wps_message` -/

/-- Claim C11, evaluated on the code: `shortLenFrame` declares an EAP length of 5, the
subtraction wraps around to `2 ^ 64 - 9` and that is the length `process_packet` hands to
`process_wps_message`, for the message at offset 58 of a 63-byte frame; `longLenFrame`
declares 1000 and the length handed over is 986.  In both cases copying the message
reads outside the frame (offset 63). -/
theorem process_packet_payload_length_unchecked :
    shortLenFrame.length = 63 ∧ longLenFrame.length = 63 ∧
    wps_msg_len sampleDefs 5 = 2 ^ 64 - 9 ∧
    (∀ env : Env,
      process_packet sampleDefs env (some shortLenFrame) (some ⟨63⟩) (sampleGlobule 1 0)
        = process_wps_message sampleDefs env shortLenFrame 58 (2 ^ 64 - 9)
            (wps_call_state 8 4 (sampleGlobule 1 0))) ∧
    process_packet sampleDefs sampleEnv (some shortLenFrame) (some ⟨63⟩) (sampleGlobule 1 0)
      = .error 63 ∧
    (∀ env : Env,
      process_packet sampleDefs env (some longLenFrame) (some ⟨63⟩) (sampleGlobule 1 0)
        = process_wps_message sampleDefs env longLenFrame 58 986
            (wps_call_state 8 4 (sampleGlobule 1 0))) ∧
    process_packet sampleDefs sampleEnv (some longLenFrame) (some ⟨63⟩) (sampleGlobule 1 0)
      = .error 63 :=
  ⟨rfl, rfl, rfl,
   fun env => process_packet_of_WpsFrame sampleDefs env shortLenFrame ⟨63⟩ (sampleGlobule 1 0)
     8 8 8 5 4
     ⟨⟨⟨by decide, rfl, rfl, rfl, rfl, rfl, rfl, rfl, rfl, by decide⟩, rfl, by decide, rfl, rfl⟩,
      by decide, by decide, rfl, rfl, rfl⟩,
   rfl,
   fun env => process_packet_of_WpsFrame sampleDefs env longLenFrame ⟨63⟩ (sampleGlobule 1 0)
     8 8 8 1000 4
     ⟨⟨⟨by decide, rfl, rfl, rfl, rfl, rfl, rfl, rfl, rfl, by decide⟩, rfl, by decide, rfl, rfl⟩,
      by decide, by decide, rfl, rfl, rfl⟩,
   rfl⟩

/-! ## What a packet classified `UNKNOWN` leaves behind -/

/-- Claim C12 as stated fails: an EAP notification request is classified `UNKNOWN` (the
spec's `NONE`), yet its identifier 9 is recorded in `eap_id` and the timer is stopped;
and when no buffer can be obtained for a WPS message, the packet is classified
`UNKNOWN` after the engine state was saved (13), the opcode recorded (4) and the engine
state decremented (12). -/
theorem process_packet_unknown_changes_state :
    process_packet sampleDefs sampleEnv (some notificationRequest)
        (some ⟨notificationRequest.length⟩) (sampleGlobule 1 0)
      = .ok (sampleDefs.UNKNOWN,
          { sampleGlobule 1 0 with eap_id := 9, log := [Action.stop_timer] }) ∧
    process_packet sampleDefs noMemEnv (some (wscFrame 4)) (some ⟨(wscFrame 4).length⟩)
        (sampleGlobule 1 0)
      = .ok (sampleDefs.UNKNOWN,
          { sampleGlobule 1 0 with
            eap_id := 8, log := [Action.stop_timer], last_wps_state := 13, opcode := 4,
            wps := ⟨12, 0⟩ }) :=
  ⟨rfl, rfl⟩

/-- A packet that is an EAP request (lines 213-269) has its identifier recorded and
the timer stopped; an identity request also clears the start count, any other type
goes on to the expanded-type branch. -/
theorem process_packet_of_EapRequest (d : Defs) (env : Env) (p : List Nat) (h : pcap_pkthdr)
    (g : Globule) (fh fc id ty : Nat)
    (hreq : EapRequest d p h.len g.bssid g.mac fh fc id ty) :
    process_packet d env (some p) (some h) g
      = if ty = d.EAP_IDENTITY then
          .ok (d.IDENTITY_REQUEST, set_eapol_start_count 0 (stop_timer (set_eap_id id g)))
        else process_expanded d env p h.len (eap_off d fh) ty (stop_timer (set_eap_id id g)) := by
  rw [process_packet_of_EapFrame d env p h g fh fc hreq.frame]
  have hne : ¬ d.EAP_REQUEST = d.EAP_FAILURE := hreq.hnotfail
  simp only [process_eap, hreq.hcode, hreq.hid, hreq.hty, hne, if_true, if_false]

/-- Claim C12, amended: for a packet classified `UNKNOWN` (the spec's `NONE`) the start
count keeps its value; if the packet is not an EAP request that passed the checks, no
session field changes and the timer is not stopped; if it is such a request and is not
handed to `process_wps_message`, its identifier is recorded in `eap_id` and the timer
is stopped, and nothing else changes (in particular not the saved state, the opcode
or the engine state). -/
theorem process_packet_unknown (d : Defs) (env : Env) (p : List Nat) (h : pcap_pkthdr)
    (g g1 : Globule)
    (hret : process_packet d env (some p) (some h) g = .ok (d.UNKNOWN, g1))
    (hdiff : d.IDENTITY_REQUEST ≠ d.UNKNOWN) :
    g1.eapol_start_count = g.eapol_start_count ∧
    ((∀ fh fc id ty, ¬ EapRequest d p h.len g.bssid g.mac fh fc id ty) → g1 = g) ∧
    (∀ fh fc id ty, EapRequest d p h.len g.bssid g.mac fh fc id ty →
      (∀ fh fc id eap_len opcode,
        ¬ WpsFrame d p h.len g.bssid g.mac fh fc id eap_len opcode) →
      g1 = stop_timer (set_eap_id id g) ∧ g1.eap_id = id ∧
        g1.log = g.log ++ [Action.stop_timer] ∧
        g1.last_wps_state = g.last_wps_state ∧ g1.opcode = g.opcode ∧ g1.wps = g.wps) := by
  refine ⟨?_, ?_, ?_⟩
  · rcases process_packet_branches d env p h g g1 d.UNKNOWN hret with
      hg | ⟨fh, fc, id, ty, hreq, hcase⟩ | ⟨fh, fc, id, eap_len, opcode, hwps, hmsg⟩
    · subst hg
      rfl
    · rcases hcase with ⟨ht, _⟩ | ⟨_, hg⟩
      · exact absurd ht.symm hdiff
      · subst hg
        rfl
    · obtain ⟨w, r, hg⟩ := process_wps_message_fields d env p _ _ _ g1 _ hmsg
      subst hg
      rfl
  · intro hno
    rcases process_packet_branches d env p h g g1 d.UNKNOWN hret with
      hg | ⟨fh, fc, id, ty, hreq, _⟩ | ⟨fh, fc, id, eap_len, opcode, hwps, _⟩
    · exact hg
    · exact absurd hreq (hno fh fc id ty)
    · exact absurd hwps.request (hno fh fc id d.EAP_EXPANDED)
  · intro fh fc id ty hreq hno
    rw [process_packet_of_EapRequest d env p h g fh fc id ty hreq] at hret
    have hg : g1 = stop_timer (set_eap_id id g) := by
      split_ifs at hret with hident
      · exact absurd (congrArg Prod.fst (Except.ok.inj hret)) hdiff
      · rcases process_expanded_cases d env p h.len (eap_off d fh) ty _ g1 d.UNKNOWN hret with
          ⟨_, hg⟩ | ⟨eap_len, opcode, htyx, hsize, hwfa, heaplen, hopcode, _⟩
        · exact hg
        · subst htyx
          exact absurd ⟨hreq, fun he => hident he, hsize, hwfa, heaplen, hopcode⟩
            (hno fh fc id eap_len opcode)
    subst hg
    exact ⟨rfl, rfl, rfl, rfl, rfl, rfl⟩

/-- The EAP notification request is an EAP request with identifier 9 and type 2. -/
theorem notificationRequest_is_request :
    EapRequest sampleDefs notificationRequest notificationRequest.length sampleBssid sampleMac
      8 8 9 2 :=
  ⟨⟨by decide, rfl, rfl, rfl, rfl, rfl, rfl, rfl, rfl, by decide⟩, rfl, by decide, rfl, rfl⟩

/-- The EAP notification request is not handed to `process_wps_message`: its type is
2, not the expanded type. -/
theorem notificationRequest_not_wps :
    ∀ fh fc id eap_len opcode,
      ¬ WpsFrame sampleDefs notificationRequest notificationRequest.length sampleBssid
        sampleMac fh fc id eap_len opcode := by
  intro fh fc id eap_len opcode hw
  have h1 : (Except.ok 8 : Except Nat Nat) = .ok fh := hw.request.frame.hrt
  cases h1
  have h2 : (Except.ok 2 : Except Nat Nat) = .ok 254 := hw.request.hty
  exact absurd (Except.ok.inj h2) (by decide)

/-- Witness for `process_packet_unknown`: the EAP notification request, which is
classified `UNKNOWN` and not handed to `process_wps_message`; the start count is kept,
identifier 9 is recorded, the timer is stopped and nothing else changes. -/
theorem process_packet_unknown_witness :
    (stop_timer (set_eap_id 9 (sampleGlobule 1 0))).eapol_start_count
      = (sampleGlobule 1 0).eapol_start_count ∧
    (stop_timer (set_eap_id 9 (sampleGlobule 1 0))
        = stop_timer (set_eap_id 9 (sampleGlobule 1 0)) ∧
      (stop_timer (set_eap_id 9 (sampleGlobule 1 0))).eap_id = 9 ∧
      (stop_timer (set_eap_id 9 (sampleGlobule 1 0))).log
        = (sampleGlobule 1 0).log ++ [Action.stop_timer] ∧
      (stop_timer (set_eap_id 9 (sampleGlobule 1 0))).last_wps_state
        = (sampleGlobule 1 0).last_wps_state ∧
      (stop_timer (set_eap_id 9 (sampleGlobule 1 0))).opcode = (sampleGlobule 1 0).opcode ∧
      (stop_timer (set_eap_id 9 (sampleGlobule 1 0))).wps = (sampleGlobule 1 0).wps) :=
  ⟨(process_packet_unknown sampleDefs sampleEnv notificationRequest
      ⟨notificationRequest.length⟩ (sampleGlobule 1 0)
      (stop_timer (set_eap_id 9 (sampleGlobule 1 0))) rfl (by decide)).1,
   (process_packet_unknown sampleDefs sampleEnv notificationRequest
      ⟨notificationRequest.length⟩ (sampleGlobule 1 0)
      (stop_timer (set_eap_id 9 (sampleGlobule 1 0))) rfl (by decide)).2.2 8 8 9 2
      notificationRequest_is_request notificationRequest_not_wps⟩

/-! ## The saved previous state -/

/-- The saved state after `process_wps_message` is the one it was called with. -/
theorem process_wps_message_last_wps_state (d : Defs) (env : Env) (p : List Nat)
    (data n : Nat) (g g1 : Globule) (t : Int)
    (hret : process_wps_message d env p data n g = .ok (t, g1)) :
    g1.last_wps_state = g.last_wps_state := by
  obtain ⟨w, r, hg⟩ := process_wps_message_fields d env p data n g g1 t hret
  subst hg
  rfl

/-- Claim C19 as stated fails: with an allocator that obtains no buffer the engine is
never called (its call counter `priv` stays 0 and its state is only rolled back, from
13 to 12), so the payload is not handed to the engine, and yet the saved state moves
from 0 to 13. -/
theorem snapshot_moves_without_engine_call :
    (sampleGlobule 1 0).last_wps_state = 0 ∧
    process_packet sampleDefs countingNoMemEnv (some (wscFrame 4))
        (some ⟨(wscFrame 4).length⟩) (sampleGlobule 1 0)
      = .ok (sampleDefs.UNKNOWN,
          { sampleGlobule 1 0 with
            eap_id := 8, log := [Action.stop_timer], last_wps_state := 13, opcode := 4,
            wps := ⟨12, 0⟩ }) :=
  ⟨rfl, rfl⟩

/-- Claim C19, amended: after a call of `process_packet` that reaches the call of
`process_wps_message` (line 311), the saved state equals the engine state from before
the call, whatever the allocator, the engine and the rollback do, also when no buffer
is obtained and the engine never sees the payload; after every other call that
returns, null pointers included, the saved state is what it was. -/
theorem previous_state_snapshot (d : Defs) (env : Env) (packet : Option (List Nat))
    (header : Option pcap_pkthdr) (g g1 : Globule) (t : Int)
    (hret : process_packet d env packet header g = .ok (t, g1)) :
    ((∃ p h fh fc id eap_len opcode, packet = some p ∧ header = some h ∧
        WpsFrame d p h.len g.bssid g.mac fh fc id eap_len opcode) →
      g1.last_wps_state = g.wps.state) ∧
    ((¬ ∃ p h fh fc id eap_len opcode, packet = some p ∧ header = some h ∧
        WpsFrame d p h.len g.bssid g.mac fh fc id eap_len opcode) →
      g1.last_wps_state = g.last_wps_state) := by
  constructor
  · rintro ⟨p, h, fh, fc, id, eap_len, opcode, rfl, rfl, hwps⟩
    rw [process_packet_of_WpsFrame d env p h g fh fc id eap_len opcode hwps] at hret
    exact (process_wps_message_last_wps_state d env p _ _ _ g1 t hret).trans rfl
  · intro hno
    cases packet with
    | none =>
      cases hret
      rfl
    | some p =>
      cases header with
      | none =>
        cases hret
        rfl
      | some h =>
        rcases process_packet_branches d env p h g g1 t hret with
          hg | ⟨fh, fc, id, ty, _, hcase⟩ | ⟨fh, fc, id, eap_len, opcode, hwps, _⟩
        · subst hg
          rfl
        · rcases hcase with ⟨_, hg⟩ | ⟨_, hg⟩ <;> subst hg <;> rfl
        · exact absurd ⟨p, h, fh, fc, id, eap_len, opcode, rfl, rfl, hwps⟩ hno

/-- Witness for `previous_state_snapshot`: a WPS message that the engine does not
process, in engine state 13; the engine state is rolled back to 12 and the saved state
is 13. -/
theorem previous_state_snapshot_witness :
    ((∃ p h fh fc id eap_len opcode, some (wscFrame 0) = some p ∧
        some (⟨(wscFrame 0).length⟩ : pcap_pkthdr) = some h ∧
        WpsFrame sampleDefs p h.len (sampleGlobule 1 0).bssid (sampleGlobule 1 0).mac
          fh fc id eap_len opcode) →
      (13 : Int) = (sampleGlobule 1 0).wps.state) ∧
    ((¬ ∃ p h fh fc id eap_len opcode, some (wscFrame 0) = some p ∧
        some (⟨(wscFrame 0).length⟩ : pcap_pkthdr) = some h ∧
        WpsFrame sampleDefs p h.len (sampleGlobule 1 0).bssid (sampleGlobule 1 0).mac
          fh fc id eap_len opcode) →
      (13 : Int) = (sampleGlobule 1 0).last_wps_state) :=
  previous_state_snapshot sampleDefs sampleEnv (some (wscFrame 0))
    (some ⟨(wscFrame 0).length⟩) (sampleGlobule 1 0)
    { sampleGlobule 1 0 with
      eap_id := 8, log := [Action.stop_timer], last_wps_state := 13, opcode := 4,
      wps := ⟨12, 0⟩ }
    12 rfl

/-! ## The message classifier -/

/-- Claim C13: when the engine moves from state `N` to `N + 1`, which is neither
`SEND_WSC_NACK` nor `RECV_DONE`, and `N` is the state `process_packet` saved before
the call, `process_wps_message` returns `N` and leaves the engine data as the engine
produced them: state `N + 1`, no rollback. -/
theorem process_wps_message_advance (d : Defs) (env : Env) (p : List Nat) (data n : Nat)
    (g : Globule) (msg : List Nat) (N : Int)
    (halloc : env.alloc_ok n = true) (hmsg : rdN p data n = .ok msg)
    (hstate : g.wps.state = N) (hsaved : g.last_wps_state = N)
    (hadv : (env.wps_registrar_process_msg g.wps g.opcode msg).state = N + 1)
    (hnack : N + 1 ≠ d.SEND_WSC_NACK) (hdone : N + 1 ≠ d.RECV_DONE) :
    ∃ g1, process_wps_message d env p data n g = .ok (N, g1) ∧
      g1 = { g with wps := env.wps_registrar_process_msg g.wps g.opcode msg } ∧
      g1.wps.state = N + 1 := by
  subst hstate
  have hne : ¬ g.wps.state + 1 = g.last_wps_state := by
    rw [hsaved]
    omega
  refine ⟨_, ?_, rfl, hadv⟩
  simp only [process_wps_message, wpabuf_alloc_copy, halloc, hmsg, if_true, hadv, hnack, hdone,
    if_false, revert_state, hne]
  simp

/-- Witness for `process_wps_message_advance`: message 1 in engine state 13, as
`process_packet` hands it over. -/
theorem process_wps_message_advance_witness :
    ∃ g1, process_wps_message sampleDefs sampleEnv (wscFrame 4) 58 1
        (wps_call_state 8 4 (sampleGlobule 1 0)) = .ok (13, g1) ∧
      g1 = { wps_call_state 8 4 (sampleGlobule 1 0) with wps := ⟨14, 0⟩ } ∧
      g1.wps.state = 13 + 1 :=
  process_wps_message_advance sampleDefs sampleEnv (wscFrame 4) 58 1
    (wps_call_state 8 4 (sampleGlobule 1 0)) [4] 13 rfl rfl rfl rfl rfl (by decide) (by decide)

/-- Claim C14 as stated fails: with the engine in state 12 (`SEND_WSC_NACK`), the saved
state 12 and a payload that the engine does not process, `process_wps_message`
decrements the engine state to 11 and returns 12 (`NACK`), not the type of the
rolled-back state. -/
theorem process_wps_message_rollback_in_nack_state :
    (process_wps_message sampleDefs sampleEnv (wscFrame 0) 58 1
        { sampleGlobule 1 0 with last_wps_state := 12, opcode := 4, wps := ⟨12, 0⟩ }).map
        (fun x => (x.1, x.2.wps.state))
      = .ok (sampleDefs.NACK, 11) :=
  rfl

/-- Claim C14, amended: when after processing the engine state equals the saved state
and is neither `SEND_WSC_NACK` nor `RECV_DONE`, `process_wps_message` decrements the
engine state by exactly one and returns that decremented state as the message type. -/
theorem process_wps_message_rollback (d : Defs) (env : Env) (p : List Nat) (data n : Nat)
    (g : Globule) (msg : List Nat)
    (halloc : env.alloc_ok n = true) (hmsg : rdN p data n = .ok msg)
    (hsame : (env.wps_registrar_process_msg g.wps g.opcode msg).state = g.last_wps_state)
    (hnack : g.last_wps_state ≠ d.SEND_WSC_NACK) (hdone : g.last_wps_state ≠ d.RECV_DONE) :
    ∃ g1, process_wps_message d env p data n g = .ok (g.last_wps_state - 1, g1) ∧
      g1.wps.state = g.last_wps_state - 1 ∧
      g1.wps.priv = (env.wps_registrar_process_msg g.wps g.opcode msg).priv := by
  refine ⟨{ g with wps := { env.wps_registrar_process_msg g.wps g.opcode msg with
    state := g.last_wps_state - 1 } }, ?_, rfl, rfl⟩
  simp only [process_wps_message, wpabuf_alloc_copy, halloc, hmsg, if_true, hsame, hnack, hdone,
    if_false, revert_state]

/-- Witness for `process_wps_message_rollback`: a payload that the engine does not
process in state 13, as `process_packet` hands it over. -/
theorem process_wps_message_rollback_witness :
    ∃ g1, process_wps_message sampleDefs sampleEnv (wscFrame 0) 58 1
        (wps_call_state 8 4 (sampleGlobule 1 0))
        = .ok ((wps_call_state 8 4 (sampleGlobule 1 0)).last_wps_state - 1, g1) ∧
      g1.wps.state = (wps_call_state 8 4 (sampleGlobule 1 0)).last_wps_state - 1 ∧
      g1.wps.priv = 0 :=
  process_wps_message_rollback sampleDefs sampleEnv (wscFrame 0) 58 1
    (wps_call_state 8 4 (sampleGlobule 1 0)) [0] rfl rfl rfl (by decide) (by decide)

/-! ## Repeated processing of a payload that the engine does not advance on -/

theorem revert_state_of_eq (g : Globule) (h : g.wps.state = g.last_wps_state) :
    (revert_state g).wps.state = g.wps.state - 1 := by
  unfold revert_state
  rw [if_pos h]

theorem wpabuf_alloc_copy_some (env : Env) (p : List Nat) (data n : Nat) (msg : List Nat)
    (h : wpabuf_alloc_copy env p data n = .ok (some msg)) : rdN p data n = .ok msg := by
  unfold wpabuf_alloc_copy at h
  split_ifs at h
  · split at h
    · cases h
    · rename_i m hm
      cases h
      exact hm
  · cases h

/-- When `process_wps_message` is called with the saved state equal to the engine state
and the engine does not advance on the payload, the engine state is decremented. -/
theorem process_wps_message_stale (d : Defs) (env : Env) (p : List Nat) (data n : Nat)
    (g g1 : Globule) (t : Int)
    (hret : process_wps_message d env p data n g = .ok (t, g1))
    (hsaved : g.last_wps_state = g.wps.state)
    (hstale : ∀ (w : wps_data) (msg : List Nat), rdN p data n = .ok msg →
      (env.wps_registrar_process_msg w g.opcode msg).state = w.state) :
    g1.wps.state = g.wps.state - 1 := by
  unfold process_wps_message at hret
  split at hret
  · cases hret
  · cases hret
    exact revert_state_of_eq g hsaved.symm
  · rename_i msg halloc
    have hst := hstale g.wps msg (wpabuf_alloc_copy_some env p data n msg halloc)
    simp only [] at hret
    split_ifs at hret
    · split at hret
      · cases hret
      · cases hret
        rw [revert_state_of_eq _ (hst.trans hsaved.symm)]
        exact congrArg (fun x => x - 1) hst
    · cases hret
      rw [revert_state_of_eq _ (hst.trans hsaved.symm)]
      exact congrArg (fun x => x - 1) hst
    · cases hret
      rw [revert_state_of_eq _ (hst.trans hsaved.symm)]
      exact congrArg (fun x => x - 1) hst

/-- Claim C15 as stated fails: a WPS message that the engine does not process is
decoded twice in a row, starting in engine state 15; the first call leaves the engine
in state 14, the second in state 13. -/
theorem stale_payload_twice :
    (process_packet sampleDefs sampleEnv (some (wscFrame 0)) (some ⟨(wscFrame 0).length⟩)
        awaitingM3).map (fun x => x.2.wps.state) = .ok 14 ∧
    ((process_packet sampleDefs sampleEnv (some (wscFrame 0)) (some ⟨(wscFrame 0).length⟩)
        awaitingM3).bind
      (fun x => process_packet sampleDefs sampleEnv (some (wscFrame 0))
        (some ⟨(wscFrame 0).length⟩) x.2)).map (fun x => x.2.wps.state) = .ok 13 :=
  ⟨rfl, rfl⟩

/-- Claim C15, amended: each time a payload on which the engine does not advance is
decoded and classified through `process_packet`, the engine state is saved anew and
then decremented; after the second processing the engine state is one less than after
the first. -/
theorem stale_payload_rolls_back_again (d : Defs) (env : Env) (p : List Nat)
    (h : pcap_pkthdr) (g g1 g2 : Globule) (t1 t2 : Int) (fh fc id eap_len opcode : Nat)
    (hframe : WpsFrame d p h.len g.bssid g.mac fh fc id eap_len opcode)
    (hstale : ∀ (w : wps_data) (msg : List Nat),
      rdN p (wps_msg_off d fh) (wps_msg_len d eap_len) = .ok msg →
      (env.wps_registrar_process_msg w opcode msg).state = w.state)
    (h1 : process_packet d env (some p) (some h) g = .ok (t1, g1))
    (h2 : process_packet d env (some p) (some h) g1 = .ok (t2, g2)) :
    g1.wps.state = g.wps.state - 1 ∧ g2.wps.state = g1.wps.state - 1 := by
  have hset := process_packet_settings d env (some p) (some h) g g1 t1 h1
  have hb : g1.bssid = g.bssid := congrArg (fun x => x.2.2.1) hset
  have hm : g1.mac = g.mac := congrArg (fun x => x.2.2.2) hset
  have hframe1 : WpsFrame d p h.len g1.bssid g1.mac fh fc id eap_len opcode := by
    rw [hb, hm]
    exact hframe
  rw [process_packet_of_WpsFrame d env p h g fh fc id eap_len opcode hframe] at h1
  rw [process_packet_of_WpsFrame d env p h g1 fh fc id eap_len opcode hframe1] at h2
  have e1 := process_wps_message_stale d env p _ _ (wps_call_state id opcode g) g1 t1 h1
    (by rfl) hstale
  have e2 := process_wps_message_stale d env p _ _ (wps_call_state id opcode g1) g2 t2 h2
    (by rfl) hstale
  exact ⟨e1, e2⟩

/-- Witness for `stale_payload_rolls_back_again`: the unprocessed WPS message, twice,
starting in engine state 15. -/
theorem stale_payload_rolls_back_again_witness :
    (14 : Int) = awaitingM3.wps.state - 1 ∧ (13 : Int) = (14 : Int) - 1 :=
  stale_payload_rolls_back_again sampleDefs sampleEnv (wscFrame 0) ⟨(wscFrame 0).length⟩
    awaitingM3
    { awaitingM3 with
      eap_id := 8, log := [Action.stop_timer], last_wps_state := 15, opcode := 4,
      wps := ⟨14, 0⟩ }
    { awaitingM3 with
      eap_id := 8, log := [Action.stop_timer, Action.stop_timer], last_wps_state := 14,
      opcode := 4, wps := ⟨13, 0⟩ }
    14 13 8 8 8 15 4
    ⟨⟨⟨by decide, rfl, rfl, rfl, rfl, rfl, rfl, rfl, rfl, by decide⟩, rfl, by decide, rfl, rfl⟩,
      by decide, by decide, rfl, rfl, rfl⟩
    (fun w msg hmsg => by
      have hm : msg = [0] := (Except.ok.inj hmsg).symm
      subst hm
      rfl)
    rfl rfl

/-! ## One iteration of the loop -/

theorem check_timeout_set_key_status (d : Defs) (b : Bool) (l : Locals) (k : key_state)
    (g : Globule) :
    check_timeout d b l (set_key_status k g)
      = ((check_timeout d b l g).1, set_key_status k (check_timeout d b l g).2) := by
  have hc : (set_key_status k g).eapol_start_count = g.eapol_start_count := rfl
  unfold check_timeout
  rw [hc]
  split_ifs <;> rfl

theorem check_timeout_count_msg (d : Defs) (b : Bool) (l : Locals) (g : Globule) :
    List.count Action.msg (check_timeout d b l g).2.log = List.count Action.msg g.log := by
  unfold check_timeout
  split_ifs <;> simp [send_eapol_start, set_eapol_start_count]

/-- Claim C16: in an iteration whose classified message is `RXM5` the key status becomes
`KEY2_WIP` and `send_msg` is called exactly once; the loop flags are those of an
iteration with `RXM1`, and so are the session fields except for the key status. -/
theorem message_5_iteration (d : Defs) (env : Env) (b : Bool) (l : Locals) (g : Globule)
    (hd : d.caseLabelsDistinct) :
    (check_timeout d b (react d env d.RXM5 l g).1 (react d env d.RXM5 l g).2).2.key_status
      = key_state.KEY2_WIP ∧
    List.count Action.msg
        (check_timeout d b (react d env d.RXM5 l g).1 (react d env d.RXM5 l g).2).2.log
      = List.count Action.msg g.log + 1 ∧
    (check_timeout d b (react d env d.RXM5 l g).1 (react d env d.RXM5 l g).2).1
      = (check_timeout d b (react d env d.RXM1 l g).1 (react d env d.RXM1 l g).2).1 ∧
    (check_timeout d b (react d env d.RXM5 l g).1 (react d env d.RXM5 l g).2).2
      = set_key_status key_state.KEY2_WIP
          (check_timeout d b (react d env d.RXM1 l g).1 (react d env d.RXM1 l g).2).2 := by
  simp only [Defs.caseLabelsDistinct, List.nodup_cons, List.mem_cons, not_or] at hd
  have h5 : react d env d.RXM5 l g
      = (l, set_key_status key_state.KEY2_WIP (send_msg env g)) := by
    unfold react
    rw [if_neg (fun e => hd.1.1 e.symm), if_pos rfl]
    rfl
  have h1 : react d env d.RXM1 l g = (l, send_msg env g) := by
    unfold react
    rw [if_neg (fun e => hd.1.2.1 e.symm), if_neg (fun e => hd.2.1.1 e.symm),
      if_pos (Or.inl rfl)]
  rw [h5, h1]
  have hk : check_timeout d b l (set_key_status key_state.KEY2_WIP (send_msg env g))
      = ((check_timeout d b l (send_msg env g)).1,
          set_key_status key_state.KEY2_WIP (check_timeout d b l (send_msg env g)).2) :=
    check_timeout_set_key_status d b l key_state.KEY2_WIP (send_msg env g)
  refine ⟨?_, ?_, ?_, ?_⟩
  · exact (congrArg (fun x => x.2.key_status) hk).trans rfl
  · refine (congrArg (fun x => List.count Action.msg x.2.log) hk).trans ?_
    show List.count Action.msg (check_timeout d b l (send_msg env g)).2.log = _
    rw [check_timeout_count_msg]
    simp [send_msg]
  · exact (congrArg (fun x => x.1) hk).trans rfl
  · exact (congrArg (fun x => x.2) hk).trans rfl

/-- Witness for `message_5_iteration`: message 5 while message 5 is awaited, the timer
not expired. -/
theorem message_5_iteration_witness :
    (check_timeout sampleDefs false
        (react sampleDefs sampleEnv sampleDefs.RXM5 ⟨true, false, false, false⟩ awaitingM3).1
        (react sampleDefs sampleEnv sampleDefs.RXM5 ⟨true, false, false, false⟩ awaitingM3).2
      ).2.key_status = key_state.KEY2_WIP ∧
    List.count Action.msg
        (check_timeout sampleDefs false
          (react sampleDefs sampleEnv sampleDefs.RXM5 ⟨true, false, false, false⟩ awaitingM3).1
          (react sampleDefs sampleEnv sampleDefs.RXM5 ⟨true, false, false, false⟩ awaitingM3).2
        ).2.log
      = List.count Action.msg awaitingM3.log + 1 ∧
    (check_timeout sampleDefs false
        (react sampleDefs sampleEnv sampleDefs.RXM5 ⟨true, false, false, false⟩ awaitingM3).1
        (react sampleDefs sampleEnv sampleDefs.RXM5 ⟨true, false, false, false⟩ awaitingM3).2).1
      = (check_timeout sampleDefs false
        (react sampleDefs sampleEnv sampleDefs.RXM1 ⟨true, false, false, false⟩ awaitingM3).1
        (react sampleDefs sampleEnv sampleDefs.RXM1 ⟨true, false, false, false⟩ awaitingM3).2).1 ∧
    (check_timeout sampleDefs false
        (react sampleDefs sampleEnv sampleDefs.RXM5 ⟨true, false, false, false⟩ awaitingM3).1
        (react sampleDefs sampleEnv sampleDefs.RXM5 ⟨true, false, false, false⟩ awaitingM3).2).2
      = set_key_status key_state.KEY2_WIP
          (check_timeout sampleDefs false
            (react sampleDefs sampleEnv sampleDefs.RXM1 ⟨true, false, false, false⟩ awaitingM3).1
            (react sampleDefs sampleEnv sampleDefs.RXM1 ⟨true, false, false, false⟩ awaitingM3).2
          ).2 :=
  message_5_iteration sampleDefs sampleEnv false ⟨true, false, false, false⟩ awaitingM3
    (by decide)

/-! ## Invariants of the loop -/

theorem loop_cond_true (l : Locals) (g : Globule) (h : loop_cond l g = true) :
    g.key_status ≠ key_state.KEY_DONE ∧ l.terminated = false ∧ l.got_nack = false ∧
      l.premature_timeout = false := by
  unfold loop_cond at h
  simp only [Bool.and_eq_true, decide_eq_true_eq, Bool.not_eq_true'] at h
  exact ⟨h.1.1.1, h.1.1.2, h.1.2, h.2⟩

theorem react_premature_timeout (d : Defs) (env : Env) (t : Int) (l : Locals) (g : Globule) :
    (react d env t l g).1.premature_timeout = l.premature_timeout := by
  unfold react
  split_ifs <;> rfl

/-- When the timeout check records a premature timeout in an iteration that has sent
no identity response, the start count has been cleared and one start has been sent
since. -/
theorem check_timeout_start_count (d : Defs) (b : Bool) (l : Locals) (g : Globule)
    (hpt : l.premature_timeout = false)
    (h1 : (check_timeout d b l g).1.premature_timeout = true)
    (h2 : (check_timeout d b l g).1.id_response_sent = false) :
    (check_timeout d b l g).2.eapol_start_count = 1 := by
  unfold check_timeout at h1 h2 ⊢
  split_ifs at h1 h2 ⊢ with hb hid hmax
  · rfl
  · exact absurd (hpt.symm.trans h1) (by decide)
  · exact absurd h2 hid
  · exact absurd (hpt.symm.trans h1) (by decide)

/-- Invariant of the loop: a premature timeout without identity response goes with a
start count of one. -/
theorem exchange_loop_start_count (d : Defs) (env : Env) (evs : List Event) :
    ∀ (l : Locals) (g : Globule) (l1 : Locals) (g1 : Globule),
      (l.premature_timeout = true → l.id_response_sent = false → g.eapol_start_count = 1) →
      exchange_loop d env evs l g = .ok (l1, g1) →
      l1.premature_timeout = true → l1.id_response_sent = false →
      g1.eapol_start_count = 1 := by
  induction evs with
  | nil =>
    intro l g l1 g1 hinv h
    cases h
    exact hinv
  | cons ev evs ih =>
    intro l g l1 g1 hinv h
    unfold exchange_loop at h
    split_ifs at h with hc
    · split at h
      · cases h
        exact hinv
      · split at h
        · cases h
        · rename_i pt g2 hp
          split at h
          · cases h
          · refine ih _ _ _ _ ?_ h
            refine check_timeout_start_count d ev.out_of_time _ _ ?_
            rw [react_premature_timeout]
            exact (loop_cond_true l g hc).2.2.2
    · cases h
      exact hinv

theorem exchange_loop_of_cond_false (d : Defs) (env : Env) (evs : List Event) (l : Locals)
    (g : Globule) (hc : loop_cond l g = false) : exchange_loop d env evs l g = .ok (l, g) := by
  cases evs with
  | nil => rfl
  | cons ev evs =>
    unfold exchange_loop
    rw [if_neg (by rw [hc]; decide)]

/-- An iteration that sends no identity response and finds the receive timer expired
with the start count at `EAPOL_START_MAX_TRIES` ends the loop with a premature timeout,
whatever follows in the capture; the start count is then one.  The packet is captured
whole (`header->len` bytes). -/
theorem timeout_at_max_tries_ends_loop (d : Defs) (env : Env) (p : List Nat)
    (h : pcap_pkthdr) (rest : List Event) (l : Locals) (g g2 : Globule) (t : Int)
    (hc : loop_cond l g = true) (hid : l.id_response_sent = false)
    (hwhole : h.len ≤ p.length)
    (hp : process_packet d env (some p) (some h) g = .ok (t, g2))
    (ht : t ≠ d.IDENTITY_REQUEST)
    (hmax : g2.eapol_start_count = d.EAPOL_START_MAX_TRIES) :
    ∃ l1 g1, exchange_loop d env (⟨some p, h, true⟩ :: rest) l g = .ok (l1, g1) ∧
      l1.premature_timeout = true ∧ l1.id_response_sent = false ∧
      g1.eapol_start_count = 1 := by
  have hr1 : (react d env t l g2).1.id_response_sent = false := by
    unfold react
    rw [if_neg ht]
    split_ifs <;> exact hid
  have hr2 : (react d env t l g2).2.eapol_start_count = d.EAPOL_START_MAX_TRIES := by
    unfold react
    rw [if_neg ht]
    split_ifs <;> exact hmax
  have hct : check_timeout d true (react d env t l g2).1 (react d env t l g2).2
      = ({ (react d env t l g2).1 with premature_timeout := true },
          send_eapol_start (set_eapol_start_count 0 (react d env t l g2).2)) := by
    unfold check_timeout
    rw [if_pos rfl, if_pos hr1, if_pos hr2]
  refine ⟨{ (react d env t l g2).1 with premature_timeout := true },
    send_eapol_start (set_eapol_start_count 0 (react d env t l g2).2), ?_, rfl, hr1, rfl⟩
  unfold exchange_loop
  rw [if_pos hc]
  simp only [hp, hct, memset_packet, if_pos hwhole]
  exact exchange_loop_of_cond_false d env rest _ _ (by simp [loop_cond])

/-- Claim C17 as stated fails: in the run "session initiation, then 25 expiries of the
receive timer with only frames of another network" no identity response is sent, the
engine stays in state 13, the 25th expiry finds the start count at its maximum 25, the
loop ends with a premature timeout and the outcome is `RX_TIMEOUT`, but the start count
is 1 when the exchange returns: it is cleared on line 97 and the start sent on line 101
is counted. -/
theorem start_count_after_max_tries :
    (exchange_loop sampleDefs sampleEnv (startTimeoutRun.take 24)
        (exchange_start (sampleGlobule 1 0)).1 (exchange_start (sampleGlobule 1 0)).2).map
        (fun x => (x.1, x.2.eapol_start_count))
      = .ok ({ id_response_sent := false, premature_timeout := false, terminated := false,
               got_nack := false }, sampleDefs.EAPOL_START_MAX_TRIES) ∧
    (exchange_loop sampleDefs sampleEnv startTimeoutRun
        (exchange_start (sampleGlobule 1 0)).1 (exchange_start (sampleGlobule 1 0)).2).map
        (fun x => (x.1, x.2.wps.state))
      = .ok ({ id_response_sent := false, premature_timeout := true, terminated := false,
               got_nack := false }, 13) ∧
    (do_wps_exchange sampleDefs sampleEnv startTimeoutRun (sampleGlobule 1 0)).map
        (fun x => (x.1, x.2.eapol_start_count))
      = .ok (wps_result.RX_TIMEOUT, 1) :=
  ⟨rfl, rfl, rfl⟩

/-- Claim C17, amended: when the loop ends with a premature timeout, no identity
response was sent, no rejection was received and the engine is not in `RECV_M5` or
`RECV_M7`, the outcome is `RX_TIMEOUT` and the start count is one when the exchange
returns. -/
theorem start_timeout_outcome (d : Defs) (env : Env) (evs : List Event) (g : Globule)
    (l : Locals) (g1 : Globule)
    (hloop : exchange_loop d env evs (exchange_start g).1 (exchange_start g).2 = .ok (l, g1))
    (htimeout : l.premature_timeout = true) (hid : l.id_response_sent = false)
    (hnack : l.got_nack = false)
    (hstate : g1.wps.state ≠ d.RECV_M5 ∧ g1.wps.state ≠ d.RECV_M7) :
    ∃ gf, do_wps_exchange d env evs g = .ok (wps_result.RX_TIMEOUT, gf) ∧
      gf.eapol_start_count = 1 := by
  have hcount : g1.eapol_start_count = 1 :=
    exchange_loop_start_count d env evs _ _ l g1 (fun h => Bool.noConfusion h) hloop
      htimeout hid
  have hcond : ¬ (g1.timeout_is_nack ≠ 0 ∧
      (g1.wps.state = d.RECV_M5 ∨ g1.wps.state = d.RECV_M7)) := by
    rintro ⟨_, h5 | h7⟩
    · exact hstate.1 h5
    · exact hstate.2 h7
  have hres : resolve d l g1 = (wps_result.RX_TIMEOUT, g1) := by
    simp only [resolve, hnack, htimeout]
    rw [if_neg hcond]
    rfl
  rw [do_wps_exchange_of_loop d env evs g l g1 hloop, hres]
  refine ⟨_, rfl, ?_⟩
  rw [cleanup_fields]
  exact hcount

/-- Witness for `start_timeout_outcome`: the run with 25 expiries of the receive
timer. -/
theorem start_timeout_outcome_witness :
    ∃ gf, do_wps_exchange sampleDefs sampleEnv startTimeoutRun (sampleGlobule 1 0)
        = .ok (wps_result.RX_TIMEOUT, gf) ∧ gf.eapol_start_count = 1 :=
  start_timeout_outcome sampleDefs sampleEnv startTimeoutRun (sampleGlobule 1 0)
    ⟨false, true, false, false⟩ _ rfl rfl rfl rfl ⟨by decide, by decide⟩

/-! ## How the loop ends -/

/-- `process_packet` does not write the key status. -/
theorem process_packet_key_status (d : Defs) (env : Env) (p : List Nat) (h : pcap_pkthdr)
    (g g1 : Globule) (t : Int)
    (hret : process_packet d env (some p) (some h) g = .ok (t, g1)) :
    g1.key_status = g.key_status := by
  rcases process_packet_branches d env p h g g1 t hret with
    hg | ⟨_, _, id, _, _, hcase⟩ | ⟨_, _, id, _, opcode, _, hmsg⟩
  · subst hg
    rfl
  · rcases hcase with ⟨_, hg⟩ | ⟨_, hg⟩ <;> subst hg <;> rfl
  · obtain ⟨w, r, hg⟩ := process_wps_message_fields d env p _ _ _ g1 t hmsg
    subst hg
    rfl

/-- The `switch` records at most one of: key done, rejection, termination. -/
theorem react_exclusive (d : Defs) (env : Env) (t : Int) (l : Locals) (g : Globule)
    (hk : g.key_status ≠ key_state.KEY_DONE) (hn : l.got_nack = false)
    (ht : l.terminated = false) :
    ¬ ((react d env t l g).2.key_status = key_state.KEY_DONE ∧
        (react d env t l g).1.got_nack = true) ∧
    ¬ ((react d env t l g).2.key_status = key_state.KEY_DONE ∧
        (react d env t l g).1.terminated = true) ∧
    ¬ ((react d env t l g).1.got_nack = true ∧ (react d env t l g).1.terminated = true) := by
  unfold react
  split_ifs <;>
    simp [send_identity_response, send_msg, set_key_status, hk, hn, ht]

theorem check_timeout_flags (d : Defs) (b : Bool) (l : Locals) (g : Globule) :
    (check_timeout d b l g).2.key_status = g.key_status ∧
    (check_timeout d b l g).1.got_nack = l.got_nack ∧
    (check_timeout d b l g).1.terminated = l.terminated := by
  unfold check_timeout
  split_ifs <;> exact ⟨rfl, rfl, rfl⟩

/-- Invariant of the loop: no two of key done, rejection and termination hold
together. -/
theorem exchange_loop_exclusive (d : Defs) (env : Env) (evs : List Event) :
    ∀ (l : Locals) (g : Globule) (l1 : Locals) (g1 : Globule),
      (¬ (g.key_status = key_state.KEY_DONE ∧ l.got_nack = true) ∧
        ¬ (g.key_status = key_state.KEY_DONE ∧ l.terminated = true) ∧
        ¬ (l.got_nack = true ∧ l.terminated = true)) →
      exchange_loop d env evs l g = .ok (l1, g1) →
      ¬ (g1.key_status = key_state.KEY_DONE ∧ l1.got_nack = true) ∧
        ¬ (g1.key_status = key_state.KEY_DONE ∧ l1.terminated = true) ∧
        ¬ (l1.got_nack = true ∧ l1.terminated = true) := by
  induction evs with
  | nil =>
    intro l g l1 g1 hinv h
    cases h
    exact hinv
  | cons ev evs ih =>
    intro l g l1 g1 hinv h
    unfold exchange_loop at h
    split_ifs at h with hc
    · split at h
      · cases h
        exact hinv
      · split at h
        · cases h
        · rename_i pt g2 hp
          split at h
          · cases h
          · refine ih _ _ _ _ ?_ h
            obtain ⟨hk, ht, hn, _⟩ := loop_cond_true l g hc
            have hk2 : g2.key_status ≠ key_state.KEY_DONE := by
              rw [process_packet_key_status d env _ ev.header g g2 pt hp]
              exact hk
            obtain ⟨c1, c2, c3⟩ := check_timeout_flags d ev.out_of_time
              (react d env pt l g2).1 (react d env pt l g2).2
            rw [c1, c2, c3]
            exact react_exclusive d env pt l g2 hk2 hn ht
    · cases h
      exact hinv

/-- Claim C18 as stated fails: in the run "identity request, then an EAP failure when
the receive timer has expired" the loop ends by its condition with both the
termination and the premature timeout recorded. -/
theorem loop_ends_with_two_conditions :
    (exchange_loop sampleDefs sampleEnv failTimeoutRun (exchange_start (sampleGlobule 1 0)).1
        (exchange_start (sampleGlobule 1 0)).2).map
        (fun x => (loop_cond x.1 x.2, x.1.terminated, x.1.premature_timeout))
      = .ok (false, true, true) :=
  rfl

/-- Claim C18, amended: when the loop ends by its condition, at least one of key done,
rejection, premature timeout and termination holds, and no two of key done, rejection
and termination hold together. -/
theorem loop_end_conditions (d : Defs) (env : Env) (evs : List Event) (g : Globule)
    (l : Locals) (g1 : Globule)
    (hloop : exchange_loop d env evs (exchange_start g).1 (exchange_start g).2 = .ok (l, g1))
    (hend : loop_cond l g1 = false) :
    (g1.key_status = key_state.KEY_DONE ∨ l.got_nack = true ∨ l.premature_timeout = true ∨
        l.terminated = true) ∧
    ¬ (g1.key_status = key_state.KEY_DONE ∧ l.got_nack = true) ∧
    ¬ (g1.key_status = key_state.KEY_DONE ∧ l.terminated = true) ∧
    ¬ (l.got_nack = true ∧ l.terminated = true) := by
  refine ⟨?_, exchange_loop_exclusive d env evs _ _ l g1 ?_ hloop⟩
  · unfold loop_cond at hend
    by_cases hk : g1.key_status = key_state.KEY_DONE
    · exact Or.inl hk
    · cases hn : l.got_nack
      · cases hp : l.premature_timeout
        · cases ht : l.terminated
          · simp [hk, hn, hp, ht] at hend
          · exact Or.inr (Or.inr (Or.inr rfl))
        · exact Or.inr (Or.inr (Or.inl rfl))
      · exact Or.inr (Or.inl rfl)
  · refine ⟨?_, ?_, ?_⟩ <;> rintro ⟨_, h⟩ <;> exact Bool.noConfusion h

/-- Witness for `loop_end_conditions`: identity request, then an EAP failure. -/
theorem loop_end_conditions_witness :
    (key_state.KEY1_WIP = key_state.KEY_DONE ∨ false = true ∨ false = true ∨ true = true) ∧
    ¬ (key_state.KEY1_WIP = key_state.KEY_DONE ∧ false = true) ∧
    ¬ (key_state.KEY1_WIP = key_state.KEY_DONE ∧ true = true) ∧
    ¬ (false = true ∧ true = true) :=
  loop_end_conditions sampleDefs sampleEnv failRun (sampleGlobule 1 0)
    ⟨true, false, true, false⟩
    { sampleGlobule 1 0 with
      eap_id := 7, eapol_start_count := 0,
      log := [Action.eapol_start, Action.stop_timer, Action.identity_response] }
    rfl rfl

/-! ## The outcomes `do_wps_exchange` can return -/

/-- The outcome derivation never yields `KEY_ACCEPTED`. -/
theorem resolve_outcomes (d : Defs) (l : Locals) (g : Globule) :
    (resolve d l g).1 = wps_result.KEY_REJECTED ∨ (resolve d l g).1 = wps_result.RX_TIMEOUT ∨
      (resolve d l g).1 = wps_result.EAP_FAIL ∨ (resolve d l g).1 = wps_result.UNKNOWN_ERROR := by
  simp only [resolve]
  split_ifs <;> simp

/-- Claim C20: every run of `do_wps_exchange` either reads or writes outside a captured
packet in the loop (no defined result) or returns one of `KEY_REJECTED`, `RX_TIMEOUT`,
`EAP_FAIL` and `UNKNOWN_ERROR`, never the initial value `KEY_ACCEPTED`. -/
theorem do_wps_exchange_outcomes (d : Defs) (env : Env) (evs : List Event) (g : Globule) :
    (∃ off, exchange_loop d env evs (exchange_start g).1 (exchange_start g).2 = .error off ∧
      do_wps_exchange d env evs g = .error off) ∨
    (∃ r gf, do_wps_exchange d env evs g = .ok (r, gf) ∧
      (r = wps_result.KEY_REJECTED ∨ r = wps_result.RX_TIMEOUT ∨ r = wps_result.EAP_FAIL ∨
        r = wps_result.UNKNOWN_ERROR) ∧
      r ≠ wps_result.KEY_ACCEPTED) := by
  cases hloop : exchange_loop d env evs (exchange_start g).1 (exchange_start g).2 with
  | error off =>
    refine Or.inl ⟨off, rfl, ?_⟩
    unfold do_wps_exchange
    rw [hloop]
  | ok x =>
    obtain ⟨l, g1⟩ := x
    refine Or.inr ⟨_, _, do_wps_exchange_of_loop d env evs g l g1 hloop,
      resolve_outcomes d l g1, ?_⟩
    rcases resolve_outcomes d l g1 with h | h | h | h <;> rw [h] <;> decide

end Reaver
